import Mathlib

/-!
Verification of the auspex web-interaction engine against its
natural-language specification.

The development shallowly embeds the TypeScript sources:

* `src/security/url-validator.ts` — two coexisting variants of `validateUrl`
  (the legacy one swallows DNS-resolution errors; the newer one fails closed
  and adds IPv4-mapped IPv6 ranges to the private-IP table);
* the LLM client retry logic (`isRetryableError`, `LLMClient.decideAction`);
* the interactive agent loop and static loop (`runAgentLoop`, `runStaticLoop`),
  modelled as a fuel-indexed transition system driven by a script of
  environment responses (abort flag, clock, snapshot, LLM reply, executor
  outcome), with a ghost per-iteration trace recording the facts the
  temporal claims talk about;
* the scraper cascade (`Scraper.scrape`);
* `hasEnoughContent` from the SSR extractor;
* the live-mode snapshot link pipeline (`evaluatePageData` / `takeSnapshot`).

External platform primitives (the WHATWG URL parser, the system DNS
resolver, cheerio DOM stripping, the wall clock, the browser, the LLM
endpoint) are modelled as explicit inputs: a `ParsedUrl` record carries the
hostname exactly as the WHATWG parser serialises it (IPv6 hostnames keep
their brackets — which is why the source blocklist contains the literal
string "[::1]"), DNS resolution is an `Except` value, and the agent loop
consumes a script of per-iteration environment inputs.  JavaScript string
`length`/`slice` count UTF-16 code units; we use characters, which agrees on
all inputs mentioned here.
-/

namespace Auspex

/-!
### Kernel-computable string primitives

Core `String` operations such as `String.startsWith` are implemented with
well-founded recursion over byte positions and do not reduce inside the
kernel, so the embedding uses character-list versions with the same
semantics (JavaScript strings are sequences of code units; every string the
claims mention is plain ASCII, where the two views agree).
-/

/-- `s.startsWith(pre)`. -/
def strStartsWith (s pre : String) : Bool :=
  pre.toList.isPrefixOf s.toList

/-- `s.endsWith(suf)`. -/
def strEndsWith (s suf : String) : Bool :=
  suf.toList.reverse.isPrefixOf s.toList.reverse

/-- `s.toLowerCase()`. -/
def strToLower (s : String) : String :=
  ⟨s.toList.map Char.toLower⟩

/-- `s.slice(n)` — drop the first `n` characters. -/
def strDrop (s : String) (n : Nat) : String :=
  ⟨s.toList.drop n⟩

/-- `s.slice(0, n)` — keep the first `n` characters. -/
def strTake (s : String) (n : Nat) : String :=
  ⟨s.toList.take n⟩

/-- `s.length`. -/
def strLength (s : String) : Nat :=
  s.toList.length

/-- `s.trim()`. -/
def strTrim (s : String) : String :=
  ⟨((s.toList.dropWhile Char.isWhitespace).reverse.dropWhile Char.isWhitespace).reverse⟩

/-- Scan for `pat` as a contiguous sublist of `s`. -/
def containsList (pat : List Char) : List Char → Bool
  | [] => pat.isEmpty
  | c :: rest => pat.isPrefixOf (c :: rest) || containsList pat rest

/-- Boolean substring test: `pat` occurs contiguously inside `s`.
Mirrors JavaScript `String.prototype.includes` and a `.test` of a regex
consisting of literal characters only. -/
def containsSub (s pat : String) : Bool :=
  containsList pat.toList s.toList

theorem containsList_append_left (pl sl : List Char) :
    containsList pl (pl ++ sl) = true := by
  cases pl with
  | nil => cases sl <;> simp [containsList, List.isEmpty, List.isPrefixOf]
  | cons a pl =>
    have h : (a :: pl).isPrefixOf ((a :: pl) ++ sl) = true := by
      simp [List.isPrefixOf_iff_prefix]
    simp [containsList, h]

theorem containsSub_append_left (p s : String) : containsSub (p ++ s) p = true := by
  have h : (p ++ s).toList = p.toList ++ s.toList := by
    cases p; cases s; simp [String.toList, String.append]
  rw [containsSub, h]
  exact containsList_append_left _ _

namespace Url

/-- The components of a successfully parsed WHATWG URL that the validator
inspects.  `protocol` keeps the trailing colon, `hostname` is the serialised
host (brackets included for IPv6 literals), `href` the canonical string. -/
structure ParsedUrl where
  protocol : String
  hostname : String
  href : String
deriving DecidableEq, Repr

structure UrlValidationOptions where
  allowedDomains : List String := []
  blockedDomains : List String := []
deriving DecidableEq, Repr

/-- The octet alternation `(1[6-9]|2\d|3[01])\.` of the regex
`^172\.(1[6-9]|2\d|3[01])\.`, applied to the text following `"172."`. -/
def match172Octet (s : String) : Bool :=
  match s.toList with
  | '1' :: c :: '.' :: _ => decide ('6' ≤ c) && decide (c ≤ '9')
  | '2' :: c :: '.' :: _ => c.isDigit
  | '3' :: c :: '.' :: _ => c == '0' || c == '1'
  | _ => false

/-- `startsWith` lifted over a list of prefixes. -/
def startsWithAny (s : String) (pres : List String) : Bool :=
  pres.any (fun pre => strStartsWith s pre)

/-- `isPrivateIp` of the legacy validator variant
(`src/security/url-validator.ts`): the nine ranges
`127./8, 10./8, 192.168./16, 172.16-31./12, 169.254./16, 0./8`, the IPv6
prefixes `fc00:` and `fe80:`, and `::1`.  The two IPv6 prefix regexes carry the
`i` flag, hence the `toLower`. -/
def isPrivateIpLegacy (ip : String) : Bool :=
  strStartsWith ip "127." ||
  strStartsWith ip "10." ||
  strStartsWith ip "192.168." ||
  (strStartsWith ip "172." && match172Octet (strDrop ip 4)) ||
  strStartsWith ip "169.254." ||
  strStartsWith ip "0." ||
  strStartsWith (strToLower ip) "fc00:" ||
  strStartsWith (strToLower ip) "fe80:" ||
  ip == "::1"

/-- `isPrivateIp` of the newer fail-closed validator variant: the legacy
ranges plus the IPv4-mapped IPv6 forms `::ffff:…` (all with the `i` flag). -/
def isPrivateIp (ip : String) : Bool :=
  strStartsWith ip "127." ||
  strStartsWith ip "10." ||
  strStartsWith ip "192.168." ||
  (strStartsWith ip "172." && match172Octet (strDrop ip 4)) ||
  strStartsWith ip "169.254." ||
  strStartsWith ip "0." ||
  strStartsWith (strToLower ip) "fc00:" ||
  strStartsWith (strToLower ip) "fe80:" ||
  ip == "::1" ||
  strStartsWith (strToLower ip) "::ffff:127." ||
  strStartsWith (strToLower ip) "::ffff:10." ||
  strStartsWith (strToLower ip) "::ffff:192.168." ||
  (strStartsWith (strToLower ip) "::ffff:172." && match172Octet (strDrop (strToLower ip) 11)) ||
  strStartsWith (strToLower ip) "::ffff:169.254." ||
  strStartsWith (strToLower ip) "::ffff:0."

/-- `hostname === d || hostname.endsWith("." + d)`. -/
def domainMatch (hostname d : String) : Bool :=
  hostname == d || strEndsWith hostname ("." ++ d)

/-- The DNS step shared by both variants: scan the resolved addresses for a
private one. `dns` is the outcome of `resolve(hostname)`; `failOpen` selects
what the `catch` block does with a resolver error. -/
def dnsCheck (variantPrivate : String → Bool) (failOpen : Bool)
    (hostname href : String) (dns : Except String (List String)) :
    Except String String :=
  match dns with
  | .ok addresses =>
    match addresses.find? (fun addr => variantPrivate addr) with
    | some addr =>
      .error ("DNS rebinding detected: " ++ hostname ++ " resolves to private IP " ++ addr)
    | none => .ok href
  | .error _ =>
    if failOpen then .ok href
    else .error ("DNS resolution failed for " ++ hostname ++ " — rejecting for safety")

/-- Shared body of `validateUrl`: parse failure, protocol allowlist, host
blocklist, private-IP literal check, allow/block domain lists, then the DNS
rebinding check.  `parsed = none` models `new URL(rawUrl)` throwing. -/
def validateUrlWith (variantPrivate : String → Bool) (failOpen : Bool)
    (parsed : Option ParsedUrl) (options : UrlValidationOptions)
    (dns : Except String (List String)) : Except String String :=
  match parsed with
  | none => .error "Invalid URL"
  | some p =>
    if !(p.protocol == "http:" || p.protocol == "https:") then
      .error ("Blocked protocol: " ++ p.protocol ++ " — only http and https are allowed")
    else if p.hostname == "localhost" || p.hostname == "[::1]" then
      .error ("Blocked host: " ++ p.hostname)
    else if variantPrivate p.hostname then
      .error ("Blocked private IP: " ++ p.hostname)
    else if !options.allowedDomains.isEmpty &&
        !(options.allowedDomains.any (fun d => domainMatch p.hostname d)) then
      .error ("Domain " ++ p.hostname ++ " is not in the allowedDomains list")
    else if !options.blockedDomains.isEmpty &&
        options.blockedDomains.any (fun d => domainMatch p.hostname d) then
      .error ("Domain " ++ p.hostname ++ " is in the blockedDomains list")
    else
      dnsCheck variantPrivate failOpen p.hostname p.href dns

/-- `validateUrl` of the newer variant: fails CLOSED on DNS errors. -/
def validateUrl (parsed : Option ParsedUrl) (options : UrlValidationOptions)
    (dns : Except String (List String)) : Except String String :=
  validateUrlWith isPrivateIp false parsed options dns

/-- `validateUrl` of the legacy variant (`src/security/url-validator.ts`):
on a DNS-resolution error the `catch` block falls through and the canonical
URL is returned ("allow the request through, the browser will handle the
error"). -/
def validateUrlLegacy (parsed : Option ParsedUrl) (options : UrlValidationOptions)
    (dns : Except String (List String)) : Except String String :=
  validateUrlWith isPrivateIpLegacy true parsed options dns

/-- `true` on the `ok` branch of an `Except`. -/
def exceptIsOk : Except String String → Bool
  | .ok _ => true
  | .error _ => false

end Url

/-! ## Claims C1 and C2 — URL validator -/

/-- C1 counterexample.  The claim states that EVERY call to `validateUrl` in
which DNS resolution fails rejects with a `UrlValidationError` and never
returns a URL whose hostname could not be resolved.  The legacy variant
(`src/src/security/url-validator.ts`) refutes it: with a hostname the
resolver cannot resolve (`resolve` rejects), its `catch` block swallows the
error and the canonical URL is returned. -/
theorem c1_dns_fail_open_counterexample :
    Url.validateUrlLegacy
      (some ⟨"http:", "unresolvable.example", "http://unresolvable.example/"⟩)
      ⟨[], []⟩ (.error "ENOTFOUND") = .ok "http://unresolvable.example/" := by
  rfl

/-- C1, amended: the fail-closed variant of `validateUrl` (the newer of the
two coexisting variants, `part_006`) rejects every call in which DNS
resolution errors, whatever the parsed URL and the allow/block options; the
legacy variant instead returns the canonical URL in that situation. -/
theorem c1_fail_closed_dns_error (p : Url.ParsedUrl)
    (opts : Url.UrlValidationOptions) (e : String) :
    Url.exceptIsOk (Url.validateUrl (some p) opts (.error e)) = false := by
  unfold Url.validateUrl Url.validateUrlWith
  repeat' split
  all_goals rfl

/-- C2 counterexample.  The claim states that `validateUrl` rejects every URL
whose hostname is a private-range IP literal, including the IPv4-mapped IPv6
form `http://[::ffff:127.0.0.1]`.  The legacy variant accepts that URL: the
WHATWG parser serialises an IPv6 host with its brackets (the source's own
`BLOCKED_HOSTS` therefore lists `"[::1]"`), no regex of the private-range
table matches a bracketed hostname, and the DNS-resolution failure that a
bracketed literal always produces under `resolve` is swallowed. -/
theorem c2_mapped_loopback_counterexample :
    Url.validateUrlLegacy
      (some ⟨"http:", "[::ffff:127.0.0.1]", "http://[::ffff:127.0.0.1]/"⟩)
      ⟨[], []⟩ (.error "ENOTFOUND") = .ok "http://[::ffff:127.0.0.1]/" := by
  rfl

/-- C2, amended: for the fail-closed variant of `validateUrl` the claim
holds.  Unbracketed private IPv4 literals, `localhost` and `[::1]` are
rejected before DNS resolution is even consulted; the bracketed IPv6
literals `[::ffff:127.0.0.1]`, `[fc00::1]`, `[fe80::1]` are rejected through
the fail-closed DNS path (a bracketed literal never resolves as a DNS name);
and `https://example.com/` is accepted when the DNS result lies outside the
private ranges.  The legacy variant accepts `http://[::ffff:127.0.0.1]`
(see the counterexample). -/
theorem c2_private_ip_rejection :
    (∀ dns : Except String (List String),
      (["127.0.0.1", "10.0.0.1", "192.168.1.1", "172.16.0.1", "172.31.0.1",
        "169.254.169.254", "0.0.0.0", "localhost", "[::1]"].all
        (fun host =>
          !(Url.exceptIsOk (Url.validateUrl
              (some ⟨"http:", host, "http://" ++ host ++ "/"⟩) ⟨[], []⟩ dns)))) = true) ∧
    (["[::ffff:127.0.0.1]", "[fc00::1]", "[fe80::1]"].all
      (fun host =>
        !(Url.exceptIsOk (Url.validateUrl
            (some ⟨"http:", host, "http://" ++ host ++ "/"⟩) ⟨[], []⟩
            (.error "ENOTFOUND"))))) = true ∧
    Url.validateUrl (some ⟨"https:", "example.com", "https://example.com/"⟩)
      ⟨[], []⟩ (.ok ["93.184.216.34"]) = .ok "https://example.com/" := by
  exact ⟨fun dns => rfl, rfl, rfl⟩

namespace Llm

/-- The two shapes of exception `LLMClient.decideAction` can catch: an
`OpenAI.APIError` carrying an optional HTTP status, or any other thrown
`Error` (network failures, the truncation / empty-content / JSON-parse
errors thrown inside the `try` block) carrying only a message. -/
inductive JsError where
  | apiError (status : Option Nat) (message : String)
  | jsError (message : String)
deriving DecidableEq, Repr

/-- `isRetryableError` from `llm/client.ts`: HTTP 429, 408 or >= 500 on an
`APIError`; otherwise a lowercase message match for the four network error
markers. -/
def isRetryableError : JsError → Bool
  | .apiError status _ =>
    status == some 429 || status == some 408 ||
      (match status with
       | some st => decide (500 ≤ st)
       | none => false)
  | .jsError message =>
    containsSub (strToLower message) "econnreset" ||
    containsSub (strToLower message) "etimedout" ||
    containsSub (strToLower message) "socket hang up" ||
    containsSub (strToLower message) "fetch failed"

def MAX_RETRIES : Nat := 3

def BASE_DELAY_MS : Nat := 1000

/-- What a run of `decideAction` did: its final outcome, how many attempts
it made, and the `sleep` durations it awaited between attempts. -/
structure DecideTrace (α : Type) where
  outcome : Except JsError α
  attemptsMade : Nat
  sleepsMs : List Nat
deriving Repr

/-- The `for (attempt = 1; attempt <= MAX_RETRIES; attempt++)` body of
`decideAction`.  `attempts k` is the outcome of the k-th try (the LLM call
together with the response checks that share its `try` block); `fuel` is
`MAX_RETRIES - attempt + 1`. -/
def decideActionLoop (attempts : Nat → Except JsError α) :
    Nat → Nat → List Nat → DecideTrace α
  | _, 0, sleeps => ⟨.error (.jsError "unreachable"), 0, sleeps⟩
  | attempt, fuel + 1, sleeps =>
    match attempts attempt with
    | .ok v => ⟨.ok v, attempt, sleeps⟩
    | .error e =>
      if attempt < MAX_RETRIES && isRetryableError e then
        decideActionLoop attempts (attempt + 1) fuel
          (sleeps ++ [BASE_DELAY_MS * 2 ^ (attempt - 1)])
      else ⟨.error e, attempt, sleeps⟩

/-- `LLMClient.decideAction`, abstracted over the per-attempt outcome. -/
def decideAction (attempts : Nat → Except JsError α) : DecideTrace α :=
  decideActionLoop attempts 1 MAX_RETRIES []

/-- Case characterisation of `decideAction`: success or non-transient
failure at an attempt ends the run there; transient failures advance with
the scheduled sleep; the third attempt is final either way. -/
theorem decideAction_cases (attempts : Nat → Except JsError α) :
    (∃ v, attempts 1 = .ok v ∧ decideAction attempts = ⟨.ok v, 1, []⟩) ∨
    (∃ e, attempts 1 = .error e ∧ isRetryableError e = false ∧
      decideAction attempts = ⟨.error e, 1, []⟩) ∨
    (∃ e1, attempts 1 = .error e1 ∧ isRetryableError e1 = true ∧
      ((∃ v, attempts 2 = .ok v ∧ decideAction attempts = ⟨.ok v, 2, [1000]⟩) ∨
       (∃ e, attempts 2 = .error e ∧ isRetryableError e = false ∧
         decideAction attempts = ⟨.error e, 2, [1000]⟩) ∨
       (∃ e2, attempts 2 = .error e2 ∧ isRetryableError e2 = true ∧
         decideAction attempts = ⟨attempts 3, 3, [1000, 2000]⟩))) := by
  unfold decideAction
  cases h1 : attempts 1 with
  | ok v => exact .inl ⟨v, rfl, by simp [decideActionLoop, MAX_RETRIES, h1]⟩
  | error e1 =>
    cases hr1 : isRetryableError e1 with
    | false =>
      exact .inr (.inl ⟨e1, rfl, hr1, by simp [decideActionLoop, MAX_RETRIES, h1, hr1]⟩)
    | true =>
      refine .inr (.inr ⟨e1, rfl, hr1, ?_⟩)
      cases h2 : attempts 2 with
      | ok v =>
        exact .inl ⟨v, rfl, by
          simp [decideActionLoop, MAX_RETRIES, BASE_DELAY_MS, h1, hr1, h2]⟩
      | error e2 =>
        cases hr2 : isRetryableError e2 with
        | false =>
          exact .inr (.inl ⟨e2, rfl, hr2, by
            simp [decideActionLoop, MAX_RETRIES, BASE_DELAY_MS, h1, hr1, h2, hr2]⟩)
        | true =>
          refine .inr (.inr ⟨e2, rfl, hr2, ?_⟩)
          cases h3 : attempts 3 with
          | ok v =>
            simp [decideActionLoop, MAX_RETRIES, BASE_DELAY_MS, h1, hr1, h2, hr2, h3]
          | error e3 =>
            simp [decideActionLoop, MAX_RETRIES, BASE_DELAY_MS, h1, hr1, h2, hr2, h3]

end Llm

/-! ## Claim C7 — LLM retry discipline -/

/-- C7 counterexample.  The claim lists inter-attempt delays of
1 000, 2 000 and 4 000 ms, but with `MAX_RETRIES = 3` the third attempt is
the last, so even when every attempt fails transiently the run sleeps
exactly [1000, 2000]: a 4 000 ms delay never occurs in any execution. -/
theorem c7_no_4000ms_delay_counterexample :
    Llm.decideAction (fun _ => (.error (.apiError (some 429) "Too Many Requests") :
        Except Llm.JsError Unit)) =
      ⟨.error (.apiError (some 429) "Too Many Requests"), 3, [1000, 2000]⟩ ∧
    (Llm.decideAction (fun _ => (.error (.apiError (some 429) "Too Many Requests") :
        Except Llm.JsError Unit))).sleepsMs.contains 4000 = false := by
  exact ⟨rfl, rfl⟩

/-- C7, amended: `decideAction` makes between 1 and 3 attempts; the sleeps
it performs are exactly `1000 * 2 ^ (k - 1)` after each failed attempt `k`
that is followed by another attempt — hence at most two delays, 1 000 then
2 000 ms, and never 4 000 ms; every attempt before the last failed with a
transient (retryable) error; and a non-transient failure on the first
attempt propagates immediately with no sleep and no further attempt. -/
theorem c7_retry_discipline (attempts : Nat → Except Llm.JsError α) :
    (1 ≤ (Llm.decideAction attempts).attemptsMade ∧
      (Llm.decideAction attempts).attemptsMade ≤ 3) ∧
    (Llm.decideAction attempts).sleepsMs =
      (List.range ((Llm.decideAction attempts).attemptsMade - 1)).map
        (fun k => 1000 * 2 ^ k) ∧
    (∀ k, 1 ≤ k → k < (Llm.decideAction attempts).attemptsMade →
      ∃ e, attempts k = .error e ∧ Llm.isRetryableError e = true) ∧
    (∀ e, attempts 1 = .error e → Llm.isRetryableError e = false →
      Llm.decideAction attempts = ⟨.error e, 1, []⟩) := by
  rcases Llm.decideAction_cases attempts with
    ⟨v, h1, heq⟩ | ⟨e, h1, hr, heq⟩ | ⟨e1, h1, hr1, hrest⟩
  · refine ⟨by simp [heq], by rw [heq]; rfl, ?_, ?_⟩
    · intro k hk1 hk2; rw [heq] at hk2; simp at hk2; omega
    · intro e he hf; rw [h1] at he; simp at he
  · refine ⟨by simp [heq], by rw [heq]; rfl, ?_, ?_⟩
    · intro k hk1 hk2; rw [heq] at hk2; simp at hk2; omega
    · intro e' he' hf; rw [h1] at he'; injection he' with h; subst h; exact heq
  · have hprop : ∀ e, attempts 1 = .error e → Llm.isRetryableError e = false → False := by
      intro e he hf
      rw [h1] at he; injection he with h; subst h
      rw [hr1] at hf; exact Bool.noConfusion hf
    rcases hrest with ⟨v, h2, heq⟩ | ⟨e, h2, hr, heq⟩ | ⟨e2, h2, hr2, heq⟩
    · refine ⟨by simp [heq], by rw [heq]; rfl, ?_, ?_⟩
      · intro k hk1 hk2; rw [heq] at hk2; simp at hk2
        have hk : k = 1 := by omega
        subst hk; exact ⟨e1, h1, hr1⟩
      · intro e he hf; exact (hprop e he hf).elim
    · refine ⟨by simp [heq], by rw [heq]; rfl, ?_, ?_⟩
      · intro k hk1 hk2; rw [heq] at hk2; simp at hk2
        have hk : k = 1 := by omega
        subst hk; exact ⟨e1, h1, hr1⟩
      · intro e he hf; exact (hprop e he hf).elim
    · refine ⟨by simp [heq], by rw [heq]; rfl, ?_, ?_⟩
      · intro k hk1 hk2; rw [heq] at hk2; simp at hk2
        interval_cases k
        · exact ⟨e1, h1, hr1⟩
        · exact ⟨e2, h2, hr2⟩
      · intro e he hf; exact (hprop e he hf).elim

/-- Witness for `c7_retry_discipline`: a non-transient first failure (a
plain error whose message matches no network marker) propagates at once. -/
theorem c7_retry_discipline_witness :
    Llm.decideAction (fun _ => (.error (.jsError "boom") : Except Llm.JsError Unit)) =
      ⟨.error (.jsError "boom"), 1, []⟩ :=
  (c7_retry_discipline (fun _ => (.error (.jsError "boom") : Except Llm.JsError Unit))).2.2.2
    (.jsError "boom") rfl (by rfl)

theorem containsList_iff_infix (pat s : List Char) :
    containsList pat s = true ↔ pat <:+: s := by
  induction s with
  | nil =>
    simp [containsList, List.isEmpty_iff]
  | cons c rest ih =>
    simp [containsList, List.isPrefixOf_iff_prefix, ih, List.infix_cons_iff]

theorem containsSub_of_infix (s pat : String) (h : pat.toList <:+: s.toList) :
    containsSub s pat = true := by
  rw [containsSub, containsList_iff_infix]; exact h

theorem strToList_append (a b : String) : (a ++ b).toList = a.toList ++ b.toList := by
  cases a; cases b; simp [String.toList, String.append]

/-!
## Claim C9 — `hasEnoughContent`
-/

namespace Ssr

/-- The `antiBotPatterns` table of `scraper/extractors/ssr.ts`: every regex
in the source is a literal, case-insensitive phrase, applied to the
lowercased body text. -/
def antiBotPatterns : List String :=
  ["just a moment", "checking your browser", "ddos protection by cloudflare",
   "ray id:", "ddos-guard", "incapsula incident id", "powered by imperva",
   "datadome", "complete the security check", "prove you are human",
   "please complete the captcha", "please wait", "enable javascript",
   "you need to enable javascript", "javascript is required",
   "javascript is disabled", "please enable javascript", "access denied",
   "403 forbidden", "bot detected"]

/-- `hasEnoughContent` from `scraper/extractors/ssr.ts`.  Its input here is
the body text after the cheerio step has removed
`script, style, noscript, iframe, svg, img` elements and collapsed
whitespace — that DOM stripping is a library primitive, and every check of
the function operates on its output string. -/
def hasEnoughContent (bodyText : String) : Bool :=
  if strLength bodyText < 200 then false
  else
    let lowerText := strToLower bodyText
    let isAntiBot := antiBotPatterns.any (fun p => containsSub lowerText p)
    if isAntiBot = true ∧ strLength bodyText < 2000 then false
    else true

end Ssr

/-- C9: `hasEnoughContent` returns `false` exactly when the stripped,
whitespace-collapsed body text is shorter than 200 characters, or is shorter
than 2 000 characters and matches at least one phrase of the fixed anti-bot
set (matched case-insensitively); in every other case it returns `true`. -/
theorem c9_hasEnoughContent_iff (bodyText : String) :
    Ssr.hasEnoughContent bodyText = false ↔
      (strLength bodyText < 200 ∨
        (strLength bodyText < 2000 ∧
          Ssr.antiBotPatterns.any
            (fun p => containsSub (strToLower bodyText) p) = true)) := by
  by_cases h1 : strLength bodyText < 200
  · simp [Ssr.hasEnoughContent, h1]
  · by_cases h2 :
      Ssr.antiBotPatterns.any (fun p => containsSub (strToLower bodyText) p) = true
    · by_cases h3 : strLength bodyText < 2000 <;>
        simp [Ssr.hasEnoughContent, h1, h2, h3]
    · simp [Ssr.hasEnoughContent, h1, h2]

/-!
## Claim C8 — scraper cascade
-/

namespace Scraper

inductive ScrapeTier where
  | http
  | stealth
  | browser
deriving DecidableEq, Repr

/-- The fields of `ScrapeResult` the cascade logic reads or writes.
`ssrData` records presence of the optional `ssrData` payload. -/
structure ScrapeResult where
  url : String
  statusCode : Nat
  title : String
  tier : ScrapeTier
  durationMs : Nat
  markdown : Option String := none
  text : Option String := none
  ssrData : Bool := false
  error : Option String := none
deriving Repr

/-- `result.markdown ?? result.text ?? ""`. -/
def contentOf (r : ScrapeResult) : String :=
  r.markdown.getD (r.text.getD "")

/-- The advance condition of the automatic cascade applied to a tier that
did not throw: fewer than 200 characters of content and no SSR data. -/
def insufficient (r : ScrapeResult) : Bool :=
  decide (strLength (contentOf r) < 200) && !r.ssrData

def tier1InsufficientMsg : String :=
  "Conteúdo insuficiente após HTTP — provavelmente SPA ou bloqueio silencioso"

def tier2InsufficientMsg : String :=
  "Conteúdo insuficiente após Stealth — SPA que precisa de browser"

/-- Does this tier outcome make the automatic cascade move on? -/
def tierAdvances : Except String ScrapeResult → Bool
  | .error _ => true
  | .ok r => insufficient r

/-- The recorded cause for an attempted tier: the thrown message, or the
fixed insufficient-content message, or nothing when the tier succeeded. -/
def causeOf (t : Except String ScrapeResult) (insufficientMsg : String) : Option String :=
  match t with
  | .error m => some m
  | .ok r => if insufficient r then some insufficientMsg else none

/-- The `join("\n")` of the four error lines of the consolidated result. -/
def consolidatedError (t1e t2e : Option String) (t3e : String) : String :=
  "Todos os tiers falharam:" ++ "\n" ++
  "  Tier 1 (HTTP):    " ++ t1e.getD "não tentado" ++ "\n" ++
  "  Tier 2 (Stealth): " ++ t2e.getD "não tentado" ++ "\n" ++
  "  Tier 3 (Browser): " ++ t3e

/-- The consolidated all-tiers-failed result: `statusCode = 0`, tier
`browser`, and the multi-line error listing each tier cause. -/
def consolidatedResult (validUrl : String) (t1e t2e : Option String)
    (t3e : String) : ScrapeResult :=
  { url := validUrl, statusCode := 0, title := "", tier := .browser,
    durationMs := 0, error := some (consolidatedError t1e t2e t3e) }

/-- Tier 3 step of the automatic cascade: its success is returned raw; its
throw produces the consolidated result. -/
def cascadeTier3 (validUrl : String) (t1e t2e : Option String)
    (tier3 : Except String ScrapeResult) : Except String ScrapeResult :=
  match tier3 with
  | .ok r3 => .ok r3
  | .error m3 => .ok (consolidatedResult validUrl t1e t2e m3)

/-- Tier 2 step of the automatic cascade. -/
def cascadeTier2 (validUrl : String) (t1e : Option String)
    (tier2 tier3 : Except String ScrapeResult) : Except String ScrapeResult :=
  match tier2 with
  | .ok r2 =>
    if insufficient r2 then
      cascadeTier3 validUrl t1e (some tier2InsufficientMsg) tier3
    else .ok r2
  | .error m2 => cascadeTier3 validUrl t1e (some m2) tier3

/-- `Scraper.scrape` after URL validation (the anti-SSRF `validateUrl` call
that precedes it is modelled in the `Url` namespace): dispatch a forced
tier raw, or run the tier 1 → tier 2 → tier 3 cascade.  Each `tierN`
argument is the outcome of `this.tierN.scrape(validUrl, mergedOptions)` —
`.error` models a thrown exception. -/
def scrape (validUrl : String) (forced : Option ScrapeTier)
    (tier1 tier2 tier3 : Except String ScrapeResult) :
    Except String ScrapeResult :=
  match forced with
  | some .browser => tier3
  | some .stealth => tier2
  | some .http => tier1
  | none =>
    match tier1 with
    | .ok r1 =>
      if insufficient r1 then
        cascadeTier2 validUrl (some tier1InsufficientMsg) tier2 tier3
      else .ok r1
    | .error m1 => cascadeTier2 validUrl (some m1) tier2 tier3

/-- When tier 1 advances (throw or insufficient content), the automatic
cascade continues with tier 2 and records tier 1's cause. -/
theorem scrape_auto_advance1 (validUrl : String)
    (t1 t2 t3 : Except String ScrapeResult) (h : tierAdvances t1 = true) :
    scrape validUrl none t1 t2 t3 =
      cascadeTier2 validUrl (causeOf t1 tier1InsufficientMsg) t2 t3 := by
  cases t1 with
  | error m1 => simp [scrape, causeOf]
  | ok r1 =>
    have hi : insufficient r1 = true := by simpa [tierAdvances] using h
    simp [scrape, causeOf, hi]

/-- When tier 2 advances, the cascade continues with tier 3 and records
tier 2's cause. -/
theorem cascadeTier2_advance (validUrl : String) (t1e : Option String)
    (t2 t3 : Except String ScrapeResult) (h : tierAdvances t2 = true) :
    cascadeTier2 validUrl t1e t2 t3 =
      cascadeTier3 validUrl t1e (causeOf t2 tier2InsufficientMsg) t3 := by
  cases t2 with
  | error m2 => simp [cascadeTier2, causeOf]
  | ok r2 =>
    have hi : insufficient r2 = true := by simpa [tierAdvances] using h
    simp [cascadeTier2, causeOf, hi]

/-- Every recorded cause is a substring of the consolidated error text. -/
theorem consolidatedError_lists_causes (t1e t2e : Option String) (t3e : String) :
    (∀ c, t1e = some c → containsSub (consolidatedError t1e t2e t3e) c = true) ∧
    (∀ c, t2e = some c → containsSub (consolidatedError t1e t2e t3e) c = true) ∧
    containsSub (consolidatedError t1e t2e t3e) t3e = true := by
  refine ⟨?_, ?_, ?_⟩
  · intro c hc
    refine containsSub_of_infix _ _
      ⟨("Todos os tiers falharam:" ++ "\n" ++ "  Tier 1 (HTTP):    ").toList,
       ("\n" ++ "  Tier 2 (Stealth): " ++ t2e.getD "não tentado" ++ "\n" ++
        "  Tier 3 (Browser): " ++ t3e).toList, ?_⟩
    simp [consolidatedError, strToList_append, hc]
  · intro c hc
    refine containsSub_of_infix _ _
      ⟨("Todos os tiers falharam:" ++ "\n" ++ "  Tier 1 (HTTP):    " ++
        t1e.getD "não tentado" ++ "\n" ++ "  Tier 2 (Stealth): ").toList,
       ("\n" ++ "  Tier 3 (Browser): " ++ t3e).toList, ?_⟩
    simp [consolidatedError, strToList_append, hc]
  · refine containsSub_of_infix _ _
      ⟨("Todos os tiers falharam:" ++ "\n" ++ "  Tier 1 (HTTP):    " ++
        t1e.getD "não tentado" ++ "\n" ++ "  Tier 2 (Stealth): " ++
        t2e.getD "não tentado" ++ "\n" ++ "  Tier 3 (Browser): ").toList,
       ([] : List Char), ?_⟩
    simp [consolidatedError, strToList_append]

end Scraper

/-- C8: with no `forceTier` the cascade returns tier 1's result unless that
tier throws or yields under-200-character content without SSR data, in which
case it advances to tier 2 under the same rule and then to tier 3; when all
three fail it returns a consolidated result with `statusCode = 0` whose
multi-line error lists every attempted tier's cause; a forced tier is
dispatched alone and its raw outcome (success or thrown failure) returned. -/
theorem c8_scrape_cascade (validUrl : String)
    (t1 t2 t3 : Except String Scraper.ScrapeResult) :
    Scraper.scrape validUrl (some .http) t1 t2 t3 = t1 ∧
    Scraper.scrape validUrl (some .stealth) t1 t2 t3 = t2 ∧
    Scraper.scrape validUrl (some .browser) t1 t2 t3 = t3 ∧
    (∀ r1, t1 = .ok r1 → Scraper.insufficient r1 = false →
      Scraper.scrape validUrl none t1 t2 t3 = .ok r1) ∧
    (∀ r2, Scraper.tierAdvances t1 = true → t2 = .ok r2 →
      Scraper.insufficient r2 = false →
      Scraper.scrape validUrl none t1 t2 t3 = .ok r2) ∧
    (∀ r3, Scraper.tierAdvances t1 = true → Scraper.tierAdvances t2 = true →
      t3 = .ok r3 → Scraper.scrape validUrl none t1 t2 t3 = .ok r3) ∧
    (∀ m3, Scraper.tierAdvances t1 = true → Scraper.tierAdvances t2 = true →
      t3 = .error m3 →
      Scraper.scrape validUrl none t1 t2 t3 =
        .ok (Scraper.consolidatedResult validUrl
          (Scraper.causeOf t1 Scraper.tier1InsufficientMsg)
          (Scraper.causeOf t2 Scraper.tier2InsufficientMsg) m3) ∧
      (Scraper.consolidatedResult validUrl
        (Scraper.causeOf t1 Scraper.tier1InsufficientMsg)
        (Scraper.causeOf t2 Scraper.tier2InsufficientMsg) m3).statusCode = 0 ∧
      (∀ c, Scraper.causeOf t1 Scraper.tier1InsufficientMsg = some c →
        containsSub (Scraper.consolidatedError
          (Scraper.causeOf t1 Scraper.tier1InsufficientMsg)
          (Scraper.causeOf t2 Scraper.tier2InsufficientMsg) m3) c = true) ∧
      (∀ c, Scraper.causeOf t2 Scraper.tier2InsufficientMsg = some c →
        containsSub (Scraper.consolidatedError
          (Scraper.causeOf t1 Scraper.tier1InsufficientMsg)
          (Scraper.causeOf t2 Scraper.tier2InsufficientMsg) m3) c = true) ∧
      containsSub (Scraper.consolidatedError
        (Scraper.causeOf t1 Scraper.tier1InsufficientMsg)
        (Scraper.causeOf t2 Scraper.tier2InsufficientMsg) m3) m3 = true) := by
  refine ⟨rfl, rfl, rfl, ?_, ?_, ?_, ?_⟩
  · intro r1 h1 hins
    simp [Scraper.scrape, h1, hins]
  · intro r2 hadv1 h2 hins
    rw [Scraper.scrape_auto_advance1 validUrl t1 t2 t3 hadv1, h2]
    simp [Scraper.cascadeTier2, hins]
  · intro r3 hadv1 hadv2 h3
    rw [Scraper.scrape_auto_advance1 validUrl t1 t2 t3 hadv1,
      Scraper.cascadeTier2_advance validUrl _ t2 t3 hadv2, h3]
    rfl
  · intro m3 hadv1 hadv2 h3
    have hcauses := Scraper.consolidatedError_lists_causes
      (Scraper.causeOf t1 Scraper.tier1InsufficientMsg)
      (Scraper.causeOf t2 Scraper.tier2InsufficientMsg) m3
    refine ⟨?_, rfl, hcauses.1, hcauses.2.1, hcauses.2.2⟩
    rw [Scraper.scrape_auto_advance1 validUrl t1 t2 t3 hadv1,
      Scraper.cascadeTier2_advance validUrl _ t2 t3 hadv2, h3]
    rfl

/-- Witness for `c8_scrape_cascade`: tier 1 throws, tier 2 returns a thin
SPA shell (no SSR data), tier 3 throws — the consolidated result comes
back. -/
theorem c8_scrape_cascade_witness :
    Scraper.scrape "https://example.com/" none
      (.error "ECONNRESET")
      (.ok { url := "https://example.com/", statusCode := 200, title := "",
             tier := .stealth, durationMs := 5, markdown := some "<thin>" })
      (.error "browserType.launch failed") =
      .ok (Scraper.consolidatedResult "https://example.com/"
        (some "ECONNRESET") (some Scraper.tier2InsufficientMsg)
        "browserType.launch failed") :=
  ((c8_scrape_cascade "https://example.com/"
      (.error "ECONNRESET")
      (.ok { url := "https://example.com/", statusCode := 200, title := "",
             tier := .stealth, durationMs := 5, markdown := some "<thin>" })
      (.error "browserType.launch failed")).2.2.2.2.2.2
    "browserType.launch failed" rfl (by rfl) rfl).1

/-!
## Claim C10 — live-mode snapshot links
-/

namespace Snapshot

def TEXT_LIMIT : Nat := 3500

def LINKS_LIMIT : Nat := 25

def NOISE_HOSTS : List String :=
  ["twitter.com", "x.com", "facebook.com", "instagram.com",
   "linkedin.com", "youtube.com", "tiktok.com",
   "t.me", "wa.me", "discord.gg", "github.com"]

/-- The alternation of `NOISE_EXTENSIONS =
`/\.(png|jpe?g|gif|svg|ico|webp|css|js|woff2?|ttf|eot)(\?.*)?$/i`. -/
def NOISE_EXTENSIONS : List String :=
  ["png", "jpg", "jpeg", "gif", "svg", "ico", "webp", "css", "js",
   "woff", "woff2", "ttf", "eot"]

/-- `NOISE_EXTENSIONS.test(href)`: a listed extension preceded by a dot,
at the end of the string or immediately followed by a query string. -/
def noiseExtensionTest (href : String) : Bool :=
  let lower := strToLower href
  NOISE_EXTENSIONS.any (fun ext =>
    strEndsWith lower ("." ++ ext) || containsSub lower ("." ++ ext ++ "?"))

/-- `hostname.replace(/^www\./, "")`. -/
def stripWww (hostname : String) : String :=
  if strStartsWith hostname "www." then strDrop hostname 4 else hostname

/-- `isNoiseLink` from `browser/snapshot.ts`.  `hostnameOf` stands for
`new URL(href).hostname`; `none` models the constructor throwing (relative
or invalid URL — keep). -/
def isNoiseLink (href text : String) (hostnameOf : String → Option String) : Bool :=
  if href == "" || href == "#" || strStartsWith href "javascript:" ||
      strStartsWith href "mailto:" || strStartsWith href "tel:" then true
  else if noiseExtensionTest href then true
  else if strTrim text == "" then true
  else
    match hostnameOf href with
    | some hostname => NOISE_HOSTS.contains (stripWww hostname)
    | none => false

/-- One entry of `rawLinks` / `links`. -/
structure RawLink where
  text : String
  href : String
  index : Nat
deriving DecidableEq, Repr

/-- The `.map((el, i) => ({text: innerText.trim().slice(0,80), href, index: i}))`
step of `evaluatePageData`, with the anchor list given as
(innerText, resolved href) pairs. -/
def rawLinksOf : Nat → List (String × String) → List RawLink
  | _, [] => []
  | i, a :: rest =>
    { text := strTake (strTrim a.1) 80, href := a.2, index := i } :: rawLinksOf (i + 1) rest

/-- The link part of `evaluatePageData`: only the first
`LINKS_LIMIT * 3 = 75` anchors of `document.querySelectorAll("a[href]")`
are considered at all. -/
def evaluateRawLinks (anchors : List (String × String)) : List RawLink :=
  rawLinksOf 0 (anchors.take (LINKS_LIMIT * 3))

/-- `.map((l, i) => ({...l, index: i}))`. -/
def reindexLinks : Nat → List RawLink → List RawLink
  | _, [] => []
  | i, l :: rest => { l with index := i } :: reindexLinks (i + 1) rest

/-- The `links` computation of `takeSnapshot` (live mode): filter the raw
links through `isNoiseLink`, keep at most `LINKS_LIMIT`, reindex densely. -/
def takeSnapshotLinks (hostnameOf : String → Option String)
    (anchors : List (String × String)) : List RawLink :=
  reindexLinks 0
    (((evaluateRawLinks anchors).filter
        (fun l => !isNoiseLink l.href l.text hostnameOf)).take LINKS_LIMIT)

theorem mem_rawLinksOf {x : RawLink} :
    ∀ (i : Nat) (ys : List (String × String)), x ∈ rawLinksOf i ys →
      ∃ a ∈ ys, x.href = a.2 ∧ x.text = strTake (strTrim a.1) 80 := by
  intro i ys
  induction ys generalizing i with
  | nil => intro h; cases h
  | cons a rest ih =>
    intro h
    rcases h with _ | ⟨_, hmem⟩
    · exact ⟨a, List.mem_cons_self a rest, rfl, rfl⟩
    · obtain ⟨b, hb, h1, h2⟩ := ih (i + 1) hmem
      exact ⟨b, List.mem_cons_of_mem a hb, h1, h2⟩

theorem mem_reindexLinks {x : RawLink} :
    ∀ (i : Nat) (ys : List RawLink), x ∈ reindexLinks i ys →
      ∃ y ∈ ys, x.href = y.href ∧ x.text = y.text := by
  intro i ys
  induction ys generalizing i with
  | nil => intro h; cases h
  | cons y rest ih =>
    intro h
    rcases h with _ | ⟨_, hmem⟩
    · exact ⟨y, List.mem_cons_self y rest, rfl, rfl⟩
    · obtain ⟨b, hb, h1, h2⟩ := ih (i + 1) hmem
      exact ⟨b, List.mem_cons_of_mem y hb, h1, h2⟩

end Snapshot

/-- C10: in live mode every link of the snapshot originates from one of the
first `LINKS_LIMIT * 3 = 75` anchors of the document (its href is that
anchor's resolved href and its text the anchor's trimmed 80-character
text), and if every one of those 75 anchors is a noise link the snapshot's
link list is empty — whatever the later anchors look like. -/
theorem c10_links_from_first_75 (hostnameOf : String → Option String)
    (anchors : List (String × String)) :
    (∀ l ∈ Snapshot.takeSnapshotLinks hostnameOf anchors,
      ∃ a ∈ anchors.take (Snapshot.LINKS_LIMIT * 3),
        l.href = a.2 ∧ l.text = strTake (strTrim a.1) 80) ∧
    ((∀ a ∈ anchors.take (Snapshot.LINKS_LIMIT * 3),
        Snapshot.isNoiseLink a.2 (strTake (strTrim a.1) 80) hostnameOf = true) →
      Snapshot.takeSnapshotLinks hostnameOf anchors = []) := by
  constructor
  · intro l hl
    obtain ⟨y, hy, h1, h2⟩ := Snapshot.mem_reindexLinks 0 _ hl
    have hy' : y ∈ (Snapshot.evaluateRawLinks anchors).filter
        (fun l => !Snapshot.isNoiseLink l.href l.text hostnameOf) :=
      List.take_subset _ _ hy
    have hy'' : y ∈ Snapshot.evaluateRawLinks anchors :=
      List.mem_of_mem_filter hy'
    obtain ⟨a, ha, g1, g2⟩ := Snapshot.mem_rawLinksOf 0 _ hy''
    exact ⟨a, ha, h1.trans g1, h2.trans g2⟩
  · intro hnoise
    have hfil : (Snapshot.evaluateRawLinks anchors).filter
        (fun l => !Snapshot.isNoiseLink l.href l.text hostnameOf) = [] := by
      rw [List.filter_eq_nil_iff]
      intro l hl
      obtain ⟨a, ha, g1, g2⟩ := Snapshot.mem_rawLinksOf 0 _ hl
      rw [g1, g2]
      simp [hnoise a ha]
    rw [Snapshot.takeSnapshotLinks, hfil]
    rfl

/-- Witness for `c10_links_from_first_75`: 75 noise anchors (`href="#"`)
followed by a perfectly good link still produce an empty link list. -/
theorem c10_links_from_first_75_witness :
    Snapshot.takeSnapshotLinks (fun _ => none)
      (List.replicate 75 ("x", "#") ++ [("Read more", "https://example.com/story")]) = [] := by
  refine (c10_links_from_first_75 (fun _ => none) _).2 ?_
  have htake : ((List.replicate 75 (("x" : String), ("#" : String))) ++
      [("Read more", "https://example.com/story")]).take (Snapshot.LINKS_LIMIT * 3) =
      List.replicate 75 ("x", "#") := by rfl
  intro a ha
  rw [htake] at ha
  have := List.eq_of_mem_replicate ha
  subst this
  rfl

/-!
## The interactive agent loop (claims C3 - C6) and static loop (C5)

`runAgentLoop` of `part_004` is embedded as a fuel-indexed transition
system.  Everything the loop receives from the outside world in one
iteration — the abort flag, the browser RSS sample, the elapsed wall-clock
time at the deadline check, the snapshot, whether the screenshot capture
succeeds, the LLM call outcome (with the result of
`parseAndValidateAction` on its payload), and the action executor outcome —
is one `IterInput`, and a run is driven by a script `Nat → IterInput`
indexed by the iteration counter.  Report rendering, `durationMs`,
timestamps and the node-heap sample are formatting/clock bookkeeping
outside every claim and are not carried.

Alongside the `AgentResult` the embedded loop emits a ghost trace with one
`IterTrace` per iteration that reached the LLM call, recording the facts
the temporal claims quantify over: whether a screenshot was attached to
that request, whether the vision flag was active, whether the
consecutive-failure counter had already reached the escalation threshold at
some earlier point (`everReached3Before`, maintained exactly at the
counter's increments), and — when the iteration reached loop detection —
the action key, the window before and after, the occurrence count and
whether the STUCK branch fired.  The ghost trace is derived data; it does
not influence the transition function.
-/

namespace Loop

/-- The `AgentAction` discriminated union (`types.ts`); the `type` tag of
the second variant is the JSON string "type". -/
inductive AgentAction where
  | click (selector : String)
  | typeText (selector text : String)
  | select (selector value : String)
  | pressKey (key : String)
  | hover (selector : String)
  | goto (url : String)
  | wait (ms : Nat)
  | scroll (direction : String) (amount : Option Nat)
  | done (result : String)
deriving DecidableEq, Repr

def actionTypeName : AgentAction → String
  | .click _ => "click"
  | .typeText _ _ => "type"
  | .select _ _ => "select"
  | .pressKey _ => "pressKey"
  | .hover _ => "hover"
  | .goto _ => "goto"
  | .wait _ => "wait"
  | .scroll _ _ => "scroll"
  | .done _ => "done"

/-- JSON string-body escaping of `JSON.stringify` for quote and backslash
(the further control-character escapes never arise in the claims). -/
def jsonEscapeList : List Char → List Char
  | [] => []
  | c :: rest =>
    if c == '\\' then '\\' :: '\\' :: jsonEscapeList rest
    else if c == '"' then '\\' :: '"' :: jsonEscapeList rest
    else c :: jsonEscapeList rest

def jstr (s : String) : String :=
  "\"" ++ (⟨jsonEscapeList s.toList⟩ : String) ++ "\""

/-- `JSON.stringify(action)` with the key order produced by the zod
schemas (`type` first, then the payload fields; an absent optional
`amount` is omitted). -/
def jsonOfAction : AgentAction → String
  | .click selector => "\x7b\"type\":\"click\",\"selector\":" ++ jstr selector ++ "\x7d"
  | .typeText selector text =>
    "\x7b\"type\":\"type\",\"selector\":" ++ jstr selector ++ ",\"text\":" ++ jstr text ++ "\x7d"
  | .select selector value =>
    "\x7b\"type\":\"select\",\"selector\":" ++ jstr selector ++ ",\"value\":" ++ jstr value ++ "\x7d"
  | .pressKey key => "\x7b\"type\":\"pressKey\",\"key\":" ++ jstr key ++ "\x7d"
  | .hover selector => "\x7b\"type\":\"hover\",\"selector\":" ++ jstr selector ++ "\x7d"
  | .goto url => "\x7b\"type\":\"goto\",\"url\":" ++ jstr url ++ "\x7d"
  | .wait ms => "\x7b\"type\":\"wait\",\"ms\":" ++ toString ms ++ "\x7d"
  | .scroll direction amount =>
    "\x7b\"type\":\"scroll\",\"direction\":" ++ jstr direction ++
      (match amount with
       | some a => ",\"amount\":" ++ toString a
       | none => "") ++ "\x7d"
  | .done result => "\x7b\"type\":\"done\",\"result\":" ++ jstr result ++ "\x7d"

/-- `.replace(/\s+/g, " ")`: collapse every whitespace run to one blank.
The flag says whether the previous character was part of a run. -/
def collapseWsAux : Bool → List Char → List Char
  | _, [] => []
  | prevWs, c :: rest =>
    if c.isWhitespace then
      if prevWs then collapseWsAux true rest
      else ' ' :: collapseWsAux true rest
    else c :: collapseWsAux false rest

/-- The loop-detection action key:
`JSON.stringify(action).replace(/['"]/g, "'").replace(/\s+/g, " ")`. -/
def actionKeyOf (a : AgentAction) : String :=
  ⟨collapseWsAux false
    ((jsonOfAction a).toList.map
      (fun c => if c == '"' || c == '\'' then '\'' else c))⟩

/-- `VISION_MODELS` of `llm/vision-models.ts`. -/
def VISION_MODELS : List String :=
  ["gpt-4o", "gpt-4o-mini", "gpt-4-turbo", "gpt-4.1", "gpt-4.1-mini",
   "gpt-4.1-nano", "meta-llama/llama-4-scout", "meta-llama/llama-4-maverick"]

/-- `isVisionModel`: lowercase substring match against the whitelist. -/
def isVisionModel (model : String) : Bool :=
  VISION_MODELS.any (fun v => containsSub (strToLower model) (strToLower v))

def HISTORY_WINDOW : Nat := 8
def RECENT_WINDOW : Nat := 9
def MAX_OCCURRENCES : Nat := 3
def VISION_ESCALATION_THRESHOLD : Nat := 3

def BLOCKED_URL_PATTERNS : List String :=
  ["/sorry/", "/captcha", "/challenge", "/recaptcha", "/blocked"]

def BLOCKED_TEXT_PATTERNS : List String :=
  ["unusual traffic", "not a robot", "captcha", "blocked your ip",
   "access denied", "rate limit"]

def BLOCKED_TEXT_MAX_LENGTH : Nat := 2000

/-- The snapshot fields the loop guards read. -/
structure PageSnapshot where
  url : String
  text : String
deriving DecidableEq, Repr

/-- `isBlockedPage` from `part_004`. -/
def isBlockedPage (snapshot : PageSnapshot) : Bool :=
  let url := strToLower snapshot.url
  if BLOCKED_URL_PATTERNS.any (fun p => containsSub url p) then true
  else
    let text := strToLower snapshot.text
    decide (strLength text < BLOCKED_TEXT_MAX_LENGTH) &&
      BLOCKED_TEXT_PATTERNS.any (fun p => containsSub text p)

structure LLMUsage where
  promptTokens : Nat
  completionTokens : Nat
  totalTokens : Nat
  calls : Nat
deriving DecidableEq, Repr

def emptyUsage : LLMUsage := ⟨0, 0, 0, 0⟩

structure UsageDelta where
  promptTokens : Nat
  completionTokens : Nat
  totalTokens : Nat
deriving DecidableEq, Repr

def addUsage (u : LLMUsage) (d : UsageDelta) : LLMUsage :=
  ⟨u.promptTokens + d.promptTokens, u.completionTokens + d.completionTokens,
   u.totalTokens + d.totalTokens, u.calls + 1⟩

structure ActionRecord where
  action : AgentAction
  iteration : Nat
deriving DecidableEq, Repr

inductive AgentStatus where
  | done
  | max_iterations
  | error
  | timeout
  | aborted
deriving DecidableEq, Repr

inductive AgentTier where
  | http
  | playwright
deriving DecidableEq, Repr

/-- The `AgentResult` fields the claims read (report text, durations and
node-heap numbers are rendering/clock bookkeeping). -/
structure AgentResult where
  status : AgentStatus
  tier : AgentTier
  data : Option String
  actions : List ActionRecord
  usage : LLMUsage
  peakRssKb : Nat
  error : Option String := none
deriving DecidableEq, Repr

/-- One iteration's outside-world responses. -/
structure UnitExec where
  dummy : Unit := ()

inductive LLMOutcome where
  | failure (message : String)
  | success (delta : UsageDelta) (parsed : Except String AgentAction)
deriving Repr

structure IterInput where
  aborted : Bool
  rssKb : Nat
  elapsedMs : Nat
  snapshot : PageSnapshot
  screenshotOk : Bool
  llm : LLMOutcome
  exec : Except String Unit
deriving Repr

structure LoopConfig where
  model : String
  vision : Bool
  maxIterations : Nat
  timeoutMs : Nat
  maxTotalTokens : Nat
  actionDelayMs : Nat
deriving Repr

structure LoopState where
  i : Nat
  actions : List ActionRecord
  history : List String
  usage : LLMUsage
  peakRssKb : Nat
  recentActionKeys : List String
  consecutiveFailures : Nat
  useVision : Bool
  everReached3 : Bool
deriving Repr

def initialState : LoopState :=
  ⟨0, [], [], emptyUsage, 0, [], 0, false, false⟩

/-- Ghost record of one pass through the loop-detection block. -/
structure LoopCheckTrace where
  key : String
  windowBefore : List String
  occurrences : Nat
  stuckFired : Bool
  windowAfter : List String
  recorded : Bool
deriving DecidableEq, Repr

/-- Ghost record of one iteration that reached the LLM call. -/
structure IterTrace where
  iteration : Nat
  visionActiveAtCall : Bool
  screenshotAttached : Bool
  everReached3Before : Bool
  loopCheck : Option LoopCheckTrace
deriving DecidableEq, Repr

def buildResult (status : AgentStatus) (data : Option String)
    (st : LoopState) (error : Option String) : AgentResult :=
  { status, tier := .playwright, data, actions := st.actions,
    usage := st.usage, peakRssKb := st.peakRssKb, error }

def budgetMsg (total maxTotal : Nat) : String :=
  "Token budget exceeded" ++ (": " ++ toString total ++ " >= " ++ toString maxTotal)

def blockedMsg (url : String) : String :=
  "Blocked by target site (CAPTCHA/rate-limit detected at " ++ strTake url 100 ++ ")"

def invalidActionMsg (i : Nat) (msg : String) : String :=
  "[" ++ toString i ++ "] INVALID ACTION: " ++ msg ++
    ". Use shorter, simpler CSS selectors (#id, [name=...], tag). Max 500 chars. No JavaScript or data: URIs."

def stuckMsg (i : Nat) : String :=
  "[" ++ toString i ++ "] STUCK: action repeated 3 times in the last 9 steps. You MUST try a completely different approach."

def visionActivatedMsg (i : Nat) : String :=
  "[" ++ toString i ++ "] VISION ACTIVATED: A screenshot of the page is now included to help you understand the layout."

def execErrorMsg (i : Nat) (t msg : String) : String :=
  "[" ++ toString i ++ "] ERROR executing " ++ t ++ ": " ++ msg ++ ". Try a different approach."

def formatActionForHistory (action : AgentAction) (iteration : Nat) : String :=
  match action with
  | .click selector => "[" ++ toString iteration ++ "] click \"" ++ selector ++ "\""
  | .typeText selector text =>
    "[" ++ toString iteration ++ "] type \"" ++ text ++ "\" into \"" ++ selector ++ "\""
  | .select selector value =>
    "[" ++ toString iteration ++ "] select \"" ++ value ++ "\" in \"" ++ selector ++ "\""
  | .pressKey key => "[" ++ toString iteration ++ "] press key \"" ++ key ++ "\""
  | .hover selector => "[" ++ toString iteration ++ "] hover \"" ++ selector ++ "\""
  | .goto url => "[" ++ toString iteration ++ "] navigate to " ++ url
  | .wait ms => "[" ++ toString iteration ++ "] wait " ++ toString ms ++ "ms"
  | .scroll direction amount =>
    "[" ++ toString iteration ++ "] scroll " ++ direction ++
      (match amount with
       | some a => " " ++ toString a ++ "px"
       | none => "")
  | .done result => "[" ++ toString iteration ++ "] done: " ++ result

/-- `consecutiveFailures++`, with the ghost flag updated exactly when the
counter reaches the escalation threshold. -/
def bumpFailures (st : LoopState) : LoopState :=
  let f := st.consecutiveFailures + 1
  { st with
      consecutiveFailures := f,
      everReached3 := st.everReached3 || decide (VISION_ESCALATION_THRESHOLD ≤ f) }

/-- The escalation check shared by the three failure branches:
`if (!useVision && visionAvailable && consecutiveFailures >= 3)`. -/
def maybeEscalate (visionAvailable : Bool) (st : LoopState) : LoopState :=
  if !st.useVision && visionAvailable &&
      decide (VISION_ESCALATION_THRESHOLD ≤ st.consecutiveFailures) then
    { st with
        useVision := true,
        history := st.history ++ [visionActivatedMsg st.i] }
  else st

def defaultDoneFailMsg : String := "The agent could not complete the task."

/-- The message of a `done` result beginning with `FAILED:`:
`result.slice(7).trim() || default`. -/
def failReason (r : String) : String :=
  let t := strTrim (strDrop r 7)
  if t == "" then defaultDoneFailMsg else t

inductive StepOut where
  | terminal (tr : Option IterTrace) (r : AgentResult)
  | next (tr : IterTrace) (st : LoopState)
deriving Repr

/-- One iteration of `runAgentLoop` (`part_004`), in source order: abort
check, RSS peak update, deadline check, budget check, blocked-page check,
optional screenshot, LLM call, action parsing, loop detection, action
record, `done` dispatch, execution, failure accounting and vision
escalation. -/
def stepIter (cfg : LoopConfig) (st0 : LoopState) (inp : IterInput) : StepOut :=
  if inp.aborted then
    .terminal none (buildResult .aborted none st0 (some "Aborted by user"))
  else
    let st := { st0 with peakRssKb := max st0.peakRssKb inp.rssKb }
    if decide (cfg.timeoutMs < inp.elapsedMs) then
      .terminal none (buildResult .timeout none st
        (some ("Timeout after " ++ toString cfg.timeoutMs ++ "ms")))
    else if decide (0 < cfg.maxTotalTokens) &&
        decide (cfg.maxTotalTokens ≤ st.usage.totalTokens) then
      .terminal none (buildResult .error none st
        (some (budgetMsg st.usage.totalTokens cfg.maxTotalTokens)))
    else if isBlockedPage inp.snapshot then
      .terminal none (buildResult .error none st (some (blockedMsg inp.snapshot.url)))
    else
      let visionAvailable := cfg.vision && isVisionModel cfg.model
      let screenshotAttached := st.useVision && inp.screenshotOk
      let baseTrace : IterTrace :=
        ⟨st.i, st.useVision, screenshotAttached, st.everReached3, none⟩
      match inp.llm with
      | .failure msg =>
        .terminal (some baseTrace)
          (buildResult .error none st (some ("LLM error: " ++ msg)))
      | .success delta parsed =>
        let st := { st with usage := addUsage st.usage delta }
        match parsed with
        | .error msg =>
          let st := bumpFailures st
          let st := { st with history := st.history ++ [invalidActionMsg st.i msg] }
          let st := maybeEscalate visionAvailable st
          .next baseTrace { st with i := st.i + 1 }
        | .ok action =>
          let key := actionKeyOf action
          let windowBefore := st.recentActionKeys
          let occ := windowBefore.count key
          if decide (MAX_OCCURRENCES ≤ occ) then
            let st := bumpFailures st
            let st := { st with history := st.history ++ [stuckMsg st.i] }
            let st := maybeEscalate visionAvailable st
            let st := { st with recentActionKeys := [] }
            .next { baseTrace with loopCheck := some ⟨key, windowBefore, occ, true, [], false⟩ }
              { st with i := st.i + 1 }
          else
            let pushed := windowBefore ++ [key]
            let windowAfter :=
              if decide (RECENT_WINDOW < pushed.length) then pushed.tail else pushed
            let st := { st with
              recentActionKeys := windowAfter,
              actions := st.actions ++ [⟨action, st.i⟩] }
            let tr := { baseTrace with
              loopCheck := some ⟨key, windowBefore, occ, false, windowAfter, true⟩ }
            match action with
            | .done r =>
              if strStartsWith r "FAILED:" then
                .terminal (some tr) (buildResult .error none st (some (failReason r)))
              else
                .terminal (some tr) (buildResult .done (some r) st none)
            | _ =>
              match inp.exec with
              | .ok _ =>
                let st := { st with
                  history := st.history ++ [formatActionForHistory action st.i ++ " -> OK"],
                  consecutiveFailures := 0 }
                .next tr { st with i := st.i + 1 }
              | .error msg =>
                let st := bumpFailures st
                let st := { st with history :=
                  st.history ++ [execErrorMsg st.i (actionTypeName action) msg] }
                let st := maybeEscalate visionAvailable st
                .next tr { st with i := st.i + 1 }

/-- The `for` loop: fuel counts the iterations left until
`maxIterations`. -/
def runLoopAux (cfg : LoopConfig) (script : Nat → IterInput) :
    Nat → LoopState → AgentResult × List IterTrace
  | 0, st =>
    (buildResult .max_iterations none st
      (some ("Reached max iterations (" ++ toString cfg.maxIterations ++ ")")), [])
  | fuel + 1, st =>
    match stepIter cfg st (script st.i) with
    | .terminal tr r => (r, tr.toList)
    | .next tr st' =>
      let rest := runLoopAux cfg script fuel st'
      (rest.1, tr :: rest.2)

/-- `runAgentLoop` of `part_004`, with its ghost iteration trace. -/
def runAgentLoop (cfg : LoopConfig) (script : Nat → IterInput) :
    AgentResult × List IterTrace :=
  runLoopAux cfg script cfg.maxIterations initialState

/-- The token-accounting step of `Auspex.run` (`part_005`) that adds the
static-loop attempt's usage to the interactive loop's result:
`if (staticLoopUsage.calls > 0) result.usage += staticLoopUsage`. -/
def addStaticUsage (result : AgentResult) (staticUsage : LLMUsage) : AgentResult :=
  if decide (0 < staticUsage.calls) then
    { result with usage :=
      ⟨result.usage.promptTokens + staticUsage.promptTokens,
       result.usage.completionTokens + staticUsage.completionTokens,
       result.usage.totalTokens + staticUsage.totalTokens,
       result.usage.calls + staticUsage.calls⟩ }
  else result

structure StaticLoopResult where
  result : Option AgentResult
  usage : LLMUsage
deriving Repr

/-- `runStaticLoop` of `part_004`: abort short-circuit, one LLM call
(failures fall back), one parse (failures fall back), then the `done`
dispatch at tier `http`; any other action escalates to the browser path. -/
def runStaticLoop (aborted : Bool) (llm : LLMOutcome) : StaticLoopResult :=
  if aborted then ⟨none, emptyUsage⟩
  else
    match llm with
    | .failure _ => ⟨none, emptyUsage⟩
    | .success delta parsed =>
      let usage : LLMUsage :=
        ⟨delta.promptTokens, delta.completionTokens, delta.totalTokens, 1⟩
      match parsed with
      | .error _ => ⟨none, usage⟩
      | .ok action =>
        match action with
        | .done r =>
          let actions : List ActionRecord := [⟨.done r, 0⟩]
          if strStartsWith r "FAILED:" then
            ⟨some { status := .error, tier := .http, data := none,
                    actions, usage, peakRssKb := 0, error := some (failReason r) },
             usage⟩
          else
            ⟨some { status := .done, tier := .http, data := some r,
                    actions, usage, peakRssKb := 0 }, usage⟩
        | _ => ⟨none, usage⟩

/-!
### Invariants and step lemmas for the loop
-/

/-- Fields `bumpFailures` does not touch, and its counter/ghost updates. -/
theorem bumpFailures_fields (st : LoopState) :
    (bumpFailures st).usage = st.usage ∧
    (bumpFailures st).useVision = st.useVision ∧
    (bumpFailures st).recentActionKeys = st.recentActionKeys ∧
    (bumpFailures st).actions = st.actions ∧
    (bumpFailures st).i = st.i ∧
    (bumpFailures st).consecutiveFailures = st.consecutiveFailures + 1 ∧
    (bumpFailures st).everReached3 =
      (st.everReached3 ||
        decide (VISION_ESCALATION_THRESHOLD ≤ st.consecutiveFailures + 1)) := by
  simp [bumpFailures]

/-- Fields `maybeEscalate` does not touch. -/
theorem maybeEscalate_fields (va : Bool) (st : LoopState) :
    (maybeEscalate va st).usage = st.usage ∧
    (maybeEscalate va st).recentActionKeys = st.recentActionKeys ∧
    (maybeEscalate va st).actions = st.actions ∧
    (maybeEscalate va st).i = st.i ∧
    (maybeEscalate va st).everReached3 = st.everReached3 ∧
    (maybeEscalate va st).consecutiveFailures = st.consecutiveFailures := by
  unfold maybeEscalate
  split <;> simp

theorem maybeEscalate_useVision_mono (va : Bool) (st : LoopState)
    (h : st.useVision = true) : (maybeEscalate va st).useVision = true := by
  unfold maybeEscalate
  split <;> simp [h]

theorem maybeEscalate_useVision_cases (va : Bool) (st : LoopState)
    (h : (maybeEscalate va st).useVision = true) :
    st.useVision = true ∨
      (va = true ∧ VISION_ESCALATION_THRESHOLD ≤ st.consecutiveFailures) := by
  unfold maybeEscalate at h
  split at h
  · rename_i hc
    simp only [Bool.and_eq_true, decide_eq_true_eq] at hc
    exact .inr ⟨hc.1.2, hc.2⟩
  · exact .inl h

/-- The sliding-window invariant: at most `RECENT_WINDOW` tracked keys, no
key more than `MAX_OCCURRENCES` times. -/
def windowInv (st : LoopState) : Prop :=
  st.recentActionKeys.length ≤ RECENT_WINDOW ∧
  ∀ k, st.recentActionKeys.count k ≤ MAX_OCCURRENCES

/-- The per-loop-check facts of the amended C3. -/
def lcGood (lc : LoopCheckTrace) : Prop :=
  (lc.stuckFired = true ↔ MAX_OCCURRENCES ≤ lc.windowBefore.count lc.key) ∧
  (lc.stuckFired = true → lc.windowAfter = [] ∧ lc.recorded = false) ∧
  (lc.stuckFired = false → lc.recorded = true) ∧
  lc.windowAfter.length ≤ RECENT_WINDOW ∧
  (∀ k, lc.windowAfter.count k ≤ MAX_OCCURRENCES) ∧
  lc.occurrences = lc.windowBefore.count lc.key

/-- The vision invariant: an active vision flag needs an available vision
configuration and a failure streak that reached the threshold earlier. -/
def visionInvP (cfg : LoopConfig) (st : LoopState) : Prop :=
  st.useVision = true →
    (cfg.vision && isVisionModel cfg.model) = true ∧ st.everReached3 = true

/-- What each emitted ghost trace entry records about the state it was
emitted from. -/
def traceOk (st : LoopState) (t : IterTrace) : Prop :=
  t.visionActiveAtCall = st.useVision ∧
  t.everReached3Before = st.everReached3 ∧
  (t.screenshotAttached = true → st.useVision = true) ∧
  (∀ lc, t.loopCheck = some lc → lc.windowBefore = st.recentActionKeys ∧ lcGood lc)

/-- The `totalTokens` delta one iteration's LLM call can add. -/
def deltaOf (inp : IterInput) : Nat :=
  match inp.llm with
  | .failure _ => 0
  | .success delta _ => delta.totalTokens

theorem count_tail_le (l : List String) (k : String) :
    l.tail.count k ≤ l.count k := by
  cases l with
  | nil => simp
  | cons a t => simp [List.count_cons]

/-- Pushing a key that occurred fewer than `MAX_OCCURRENCES` times keeps
every count within the bound. -/
theorem push_count_le (wb : List String) (key : String)
    (hcnt : ∀ k, wb.count k ≤ MAX_OCCURRENCES)
    (hocc : ¬ MAX_OCCURRENCES ≤ wb.count key) :
    ∀ k, (wb ++ [key]).count k ≤ MAX_OCCURRENCES := by
  intro k
  rw [List.count_append]
  by_cases hk : key = k
  · subst hk
    have := hcnt key
    simp only [MAX_OCCURRENCES] at *
    simp [List.count_cons]
    omega
  · have := hcnt k
    have hz : ([key].count k) = 0 := by
      rw [List.count_eq_zero]
      simp only [List.mem_singleton]
      exact fun h => hk h.symm
    omega

/-- Tail-shift case of the window update (`push` then `shift`). -/
theorem pushWindow_tail_spec (wb : List String) (key : String)
    (hlen : wb.length ≤ RECENT_WINDOW)
    (hcnt : ∀ k, wb.count k ≤ MAX_OCCURRENCES)
    (hocc : ¬ MAX_OCCURRENCES ≤ wb.count key) :
    (wb ++ [key]).tail.length ≤ RECENT_WINDOW ∧
    ∀ k, (wb ++ [key]).tail.count k ≤ MAX_OCCURRENCES := by
  constructor
  · have : (wb ++ [key]).tail.length = (wb ++ [key]).length - 1 := by
      simp [List.length_tail]
    simp only [List.length_append, List.length_singleton] at *
    omega
  · exact fun k => le_trans (count_tail_le _ _) (push_count_le wb key hcnt hocc k)

/-- No-shift case of the window update. -/
theorem pushWindow_notail_spec (wb : List String) (key : String)
    (hlen2 : (wb ++ [key]).length ≤ RECENT_WINDOW)
    (hcnt : ∀ k, wb.count k ≤ MAX_OCCURRENCES)
    (hocc : ¬ MAX_OCCURRENCES ≤ wb.count key) :
    (wb ++ [key]).length ≤ RECENT_WINDOW ∧
    ∀ k, (wb ++ [key]).count k ≤ MAX_OCCURRENCES :=
  ⟨hlen2, push_count_le wb key hcnt hocc⟩

theorem maybeEscalate_recentActionKeys (va : Bool) (st : LoopState) :
    (maybeEscalate va st).recentActionKeys = st.recentActionKeys := by
  unfold maybeEscalate; split <;> rfl

theorem maybeEscalate_everReached3 (va : Bool) (st : LoopState) :
    (maybeEscalate va st).everReached3 = st.everReached3 := by
  unfold maybeEscalate; split <;> rfl

theorem maybeEscalate_i (va : Bool) (st : LoopState) :
    (maybeEscalate va st).i = st.i := by
  unfold maybeEscalate; split <;> rfl

/-- Usage accounting of one step: early-terminal iterations keep the
token count; iterations that reach the LLM call add at most that call's
delta and can only run when the budget check passed. -/
theorem stepIter_usage (cfg : LoopConfig) (st : LoopState) (inp : IterInput) :
    (∀ tr r, stepIter cfg st inp = .terminal tr r →
      r.usage.totalTokens = st.usage.totalTokens ∨
        (r.usage.totalTokens ≤ st.usage.totalTokens + deltaOf inp ∧
         (0 < cfg.maxTotalTokens → st.usage.totalTokens < cfg.maxTotalTokens))) ∧
    (∀ tr st', stepIter cfg st inp = .next tr st' →
      st'.usage.totalTokens ≤ st.usage.totalTokens + deltaOf inp ∧
      (0 < cfg.maxTotalTokens → st.usage.totalTokens < cfg.maxTotalTokens)) := by
  constructor
  · intro tr r h
    simp only [stepIter] at h
    repeat' split at h
    all_goals first
      | exact StepOut.noConfusion h
      | (cases h; left; rfl)
      | (cases h; right
         constructor
         · simp [buildResult, addUsage, deltaOf, *]
         · intro hm
           simp_all <;> omega)
  · intro tr st' h
    simp only [stepIter] at h
    repeat' split at h
    all_goals first
      | exact StepOut.noConfusion h
      | (cases h
         constructor
         · simp [buildResult, addUsage, deltaOf, bumpFailures_fields,
             maybeEscalate_fields, *]
         · intro hm
           simp_all <;> omega)

set_option maxHeartbeats 1000000 in
/-- What each ghost trace entry emitted by one step records about the
pre-step state: the vision flag and ghost flag at call time, the
screenshot gating, and — when the iteration reached loop detection — the
window and STUCK facts of the amended C3. -/
theorem stepIter_trace (cfg : LoopConfig) (st : LoopState) (inp : IterInput)
    (hwin : windowInv st) :
    (∀ tr r t, stepIter cfg st inp = .terminal tr r → tr = some t → traceOk st t) ∧
    (∀ tr st', stepIter cfg st inp = .next tr st' → traceOk st tr) := by
  obtain ⟨hlen, hcnt⟩ := hwin
  constructor
  · intro tr r t h ht
    simp only [stepIter] at h
    repeat' split at h
    all_goals first
      | exact StepOut.noConfusion h
      | (cases h; exact Option.noConfusion ht)
      | (cases h; cases ht
         refine ⟨rfl, rfl, fun hs => ?_, fun lc hlc => ?_⟩
         · simp only [Bool.and_eq_true] at hs
           exact hs.1
         · first
           | exact Option.noConfusion hlc
           | (cases hlc
              refine ⟨rfl, ⟨fun h3 => ?_, fun h3 => ?_⟩, fun hst => ?_, fun hf => ?_, ?_, ?_, rfl⟩
              · (simp_all; done)
              · first | rfl | (simp_all; done)
              · first | exact ⟨rfl, rfl⟩ | (simp_all; done)
              · first | rfl | (simp_all; done)
              · first
                | (simp [RECENT_WINDOW]; done)
                | exact (pushWindow_tail_spec _ _ hlen hcnt (by simp_all)).1
                | exact (pushWindow_notail_spec _ _ (by simp_all; done) hcnt (by simp_all)).1
              · first
                | (intro k; simp [MAX_OCCURRENCES]; done)
                | exact (pushWindow_tail_spec _ _ hlen hcnt (by simp_all)).2
                | exact (pushWindow_notail_spec _ _ (by simp_all; done) hcnt (by simp_all)).2))
  · intro tr st' h
    simp only [stepIter] at h
    repeat' split at h
    all_goals first
      | exact StepOut.noConfusion h
      | (cases h
         refine ⟨rfl, rfl, fun hs => ?_, fun lc hlc => ?_⟩
         · simp only [Bool.and_eq_true] at hs
           exact hs.1
         · first
           | exact Option.noConfusion hlc
           | (cases hlc
              refine ⟨rfl, ⟨fun h3 => ?_, fun h3 => ?_⟩, fun hst => ?_, fun hf => ?_, ?_, ?_, rfl⟩
              · (simp_all; done)
              · first | rfl | (simp_all; done)
              · first | exact ⟨rfl, rfl⟩ | (simp_all; done)
              · first | rfl | (simp_all; done)
              · first
                | (simp [RECENT_WINDOW]; done)
                | exact (pushWindow_tail_spec _ _ hlen hcnt (by simp_all)).1
                | exact (pushWindow_notail_spec _ _ (by simp_all; done) hcnt (by simp_all)).1
              · first
                | (intro k; simp [MAX_OCCURRENCES]; done)
                | exact (pushWindow_tail_spec _ _ hlen hcnt (by simp_all)).2
                | exact (pushWindow_notail_spec _ _ (by simp_all; done) hcnt (by simp_all)).2))

set_option maxHeartbeats 1000000 in
/-- State facts across one `next` step: the iteration counter advances, an
active vision flag stays active, and the vision and window invariants are
preserved. -/
theorem stepIter_state (cfg : LoopConfig) (st : LoopState) (inp : IterInput)
    (hwin : windowInv st) (hvis : visionInvP cfg st) :
    ∀ tr st', stepIter cfg st inp = .next tr st' →
      st'.i = st.i + 1 ∧
      (st.useVision = true → st'.useVision = true) ∧
      visionInvP cfg st' ∧
      windowInv st' := by
  obtain ⟨hlen, hcnt⟩ := hwin
  intro tr st' h
  simp only [stepIter] at h
  repeat' split at h
  all_goals first
    | exact StepOut.noConfusion h
    | (cases h
       refine ⟨?_, fun hv => ?_, fun hv' => ?_, ?_, ?_⟩
       · first
         | rfl
         | (simp [bumpFailures, maybeEscalate_i]; done)
       · first
         | exact hv
         | exact maybeEscalate_useVision_mono _ _ hv
       · first
         | exact hvis hv'
         | (rcases maybeEscalate_useVision_cases _ _ hv' with hl | ⟨hva, hf⟩
            · refine ⟨(hvis hl).1, ?_⟩
              have he := (hvis hl).2
              rw [maybeEscalate_everReached3]
              simp [bumpFailures, he]
            · refine ⟨hva, ?_⟩
              rw [maybeEscalate_everReached3]
              simp only [bumpFailures, Bool.or_eq_true, decide_eq_true_eq]
              right
              exact hf)
       · first
         | exact hlen
         | (simp [RECENT_WINDOW]; done)
         | exact (pushWindow_tail_spec _ _ hlen hcnt (by simp_all)).1
         | exact (pushWindow_notail_spec _ _ (by simp_all; done) hcnt (by simp_all)).1
         | (rw [maybeEscalate_recentActionKeys]; first
             | exact hlen
             | (simp [RECENT_WINDOW]; done)
             | exact (pushWindow_tail_spec _ _ hlen hcnt (by simp_all)).1
             | exact (pushWindow_notail_spec _ _ (by simp_all; done) hcnt (by simp_all)).1)
       · first
         | exact hcnt
         | (intro k; simp [MAX_OCCURRENCES]; done)
         | exact (pushWindow_tail_spec _ _ hlen hcnt (by simp_all)).2
         | exact (pushWindow_notail_spec _ _ (by simp_all; done) hcnt (by simp_all)).2
         | (rw [maybeEscalate_recentActionKeys]; first
             | exact hcnt
             | (intro k; simp [MAX_OCCURRENCES]; done)
             | exact (pushWindow_tail_spec _ _ hlen hcnt (by simp_all)).2
             | exact (pushWindow_notail_spec _ _ (by simp_all; done) hcnt (by simp_all)).2))

theorem initialState_windowInv : windowInv initialState := by
  constructor <;> simp [initialState, windowInv]

theorem initialState_visionInv (cfg : LoopConfig) : visionInvP cfg initialState := by
  intro h
  simp [initialState] at h

/-- Per-entry facts of the whole run's ghost trace. -/
theorem runLoopAux_traces (cfg : LoopConfig) (script : Nat → IterInput) :
    ∀ fuel st, windowInv st → visionInvP cfg st →
      ∀ t ∈ (runLoopAux cfg script fuel st).2,
        (∀ lc, t.loopCheck = some lc → lcGood lc) ∧
        (t.screenshotAttached = true → t.visionActiveAtCall = true) ∧
        (t.visionActiveAtCall = true →
          (cfg.vision && isVisionModel cfg.model) = true ∧
            t.everReached3Before = true) := by
  intro fuel
  induction fuel with
  | zero => intro st _ _ t ht; simp [runLoopAux] at ht
  | succ n ih =>
    intro st hwin hvis t ht
    rw [runLoopAux] at ht
    cases hstep : stepIter cfg st (script st.i) with
    | terminal tr r =>
      rw [hstep] at ht
      cases tr with
      | none => simp at ht
      | some t0 =>
        simp at ht
        subst ht
        have htr := (stepIter_trace cfg st _ hwin).1 _ r t hstep rfl
        refine ⟨fun lc hlc => (htr.2.2.2 lc hlc).2, fun hs => ?_, fun hv => ?_⟩
        · rw [htr.1]; exact htr.2.2.1 hs
        · rw [htr.1] at hv
          exact ⟨(hvis hv).1, by rw [htr.2.1]; exact (hvis hv).2⟩
    | next tr st' =>
      rw [hstep] at ht
      simp at ht
      rcases ht with heq | hmem
      · have htr := (stepIter_trace cfg st _ hwin).2 tr st' hstep
        rw [heq]
        refine ⟨fun lc hlc => (htr.2.2.2 lc hlc).2, fun hs => ?_, fun hv => ?_⟩
        · rw [htr.1]; exact htr.2.2.1 hs
        · rw [htr.1] at hv
          exact ⟨(hvis hv).1, by rw [htr.2.1]; exact (hvis hv).2⟩
      · have hstate := stepIter_state cfg st _ hwin hvis tr st' hstep
        exact ih st' hstate.2.2.2 hstate.2.2.1 t hmem

/-- Once the vision flag is active, every remaining trace entry shows it
active. -/
theorem runLoopAux_vision_all (cfg : LoopConfig) (script : Nat → IterInput) :
    ∀ fuel st, windowInv st → visionInvP cfg st → st.useVision = true →
      ∀ t ∈ (runLoopAux cfg script fuel st).2, t.visionActiveAtCall = true := by
  intro fuel
  induction fuel with
  | zero => intro st _ _ _ t ht; simp [runLoopAux] at ht
  | succ n ih =>
    intro st hwin hvis hv t ht
    rw [runLoopAux] at ht
    cases hstep : stepIter cfg st (script st.i) with
    | terminal tr r =>
      rw [hstep] at ht
      cases tr with
      | none => simp at ht
      | some t0 =>
        simp at ht
        subst ht
        rw [((stepIter_trace cfg st _ hwin).1 _ r t hstep rfl).1]
        exact hv
    | next tr st' =>
      rw [hstep] at ht
      simp at ht
      rcases ht with heq | hmem
      · rw [heq, ((stepIter_trace cfg st _ hwin).2 tr st' hstep).1]; exact hv
      · have hstate := stepIter_state cfg st _ hwin hvis tr st' hstep
        exact ih st' hstate.2.2.2 hstate.2.2.1 (hstate.2.1 hv) t hmem

/-- Vision activation is monotone along the ghost trace. -/
theorem runLoopAux_vision_mono (cfg : LoopConfig) (script : Nat → IterInput) :
    ∀ fuel st, windowInv st → visionInvP cfg st →
      ∀ (i j : Nat) (ti tj : IterTrace),
        (runLoopAux cfg script fuel st).2[i]? = some ti →
        (runLoopAux cfg script fuel st).2[j]? = some tj → i ≤ j →
        ti.visionActiveAtCall = true → tj.visionActiveAtCall = true := by
  intro fuel
  induction fuel with
  | zero => intro st _ _ i j ti tj hti; simp [runLoopAux] at hti
  | succ n ih =>
    intro st hwin hvis i j ti tj hti htj hij hvi
    rw [runLoopAux] at hti htj
    cases hstep : stepIter cfg st (script st.i) with
    | terminal tr r =>
      rw [hstep] at hti htj
      cases tr with
      | none => simp at hti
      | some t0 =>
        cases i with
        | succ i' => simp at hti
        | zero =>
          cases j with
          | succ j' => simp at htj
          | zero =>
            have h2 : some ti = some tj := by rw [← hti, ← htj]
            cases h2
            exact hvi
    | next tr st' =>
      rw [hstep] at hti htj
      have hstate := stepIter_state cfg st _ hwin hvis tr st' hstep
      cases i with
      | zero =>
        simp at hti
        have hvst : st.useVision = true := by
          rw [← ((stepIter_trace cfg st _ hwin).2 tr st' hstep).1, hti]
          exact hvi
        cases j with
        | zero =>
          simp at htj
          rw [← htj, ((stepIter_trace cfg st _ hwin).2 tr st' hstep).1]
          exact hvst
        | succ j' =>
          simp at htj
          have hmem : tj ∈ (runLoopAux cfg script n st').2 := List.getElem?_mem htj
          exact runLoopAux_vision_all cfg script n st' hstate.2.2.2 hstate.2.2.1
            (hstate.2.1 hvst) tj hmem
      | succ i' =>
        cases j with
        | zero => omega
        | succ j' =>
          simp at hti htj
          exact ih st' hstate.2.2.2 hstate.2.2.1 i' j' ti tj hti htj
            (by omega) hvi

/-- The run's final token count stays below the budget plus one call's
delta. -/
theorem runLoopAux_budget (cfg : LoopConfig) (script : Nat → IterInput) (D : Nat)
    (hmax : 0 < cfg.maxTotalTokens) (hD : ∀ n, deltaOf (script n) ≤ D) :
    ∀ fuel st, st.usage.totalTokens < cfg.maxTotalTokens + D →
      (runLoopAux cfg script fuel st).1.usage.totalTokens <
        cfg.maxTotalTokens + D := by
  intro fuel
  induction fuel with
  | zero =>
    intro st h
    simpa [runLoopAux, buildResult] using h
  | succ n ih =>
    intro st hst
    rw [runLoopAux]
    cases hstep : stepIter cfg st (script st.i) with
    | terminal tr r =>
      simp only
      rcases (stepIter_usage cfg st _).1 tr r hstep with heq | ⟨hle, hguard⟩
      · rw [heq]; exact hst
      · have hd := hD st.i
        have hg := hguard hmax
        omega
    | next tr st' =>
      simp only
      have h2 := (stepIter_usage cfg st _).2 tr st' hstep
      have hd := hD st.i
      exact ih st' (by omega)

/-- `addStaticUsage` adds at most the static tokens. -/
theorem addStaticUsage_le (r : AgentResult) (su : LLMUsage) :
    (addStaticUsage r su).usage.totalTokens ≤ r.usage.totalTokens + su.totalTokens := by
  unfold addStaticUsage
  split <;> simp

end Loop

/-! ## Concrete scripts for the loop claims -/

/-- A snapshot that trips neither blocked-URL nor blocked-text patterns. -/
def demoSnapshot : Loop.PageSnapshot :=
  ⟨"https://site.example/", "Welcome to the example page."⟩

def c3cfg : Loop.LoopConfig := ⟨"gpt-3.5-turbo", false, 5, 120000, 0, 500⟩

def c3click : Loop.IterInput :=
  ⟨false, 0, 0, demoSnapshot, false, .success ⟨10, 10, 20⟩ (.ok (.click "#nope")), .ok ()⟩

def c3done : Loop.IterInput :=
  ⟨false, 0, 0, demoSnapshot, false, .success ⟨10, 10, 20⟩ (.ok (.done "all good")), .ok ()⟩

def c3script : Nat → Loop.IterInput := fun n => if n < 3 then c3click else c3done

def c3Key : String := Loop.actionKeyOf (.click "#nope")

/-! ## Claim C3 — loop detection -/

/-- C3 counterexample.  The claim says the STUCK branch fires exactly at
the third occurrence of a key within the last 9 tracked keys and that
after processing no key appears more than twice.  Running the loop on the
same `click` at iterations 0, 1 and 2: at iteration 2 — the third
occurrence — only 2 occurrences are in the window, so the STUCK branch
does NOT fire, the action IS recorded, and after processing the window
holds the key 3 times. -/
theorem c3_third_occurrence_counterexample :
    (Loop.runAgentLoop c3cfg c3script).2[2]? =
      some ⟨2, false, false, false,
        some ⟨c3Key, [c3Key, c3Key], 2, false, [c3Key, c3Key, c3Key], true⟩⟩ ∧
    [c3Key, c3Key, c3Key].count c3Key = 3 := by
  exact ⟨rfl, rfl⟩

/-- C3, amended: in every run the STUCK branch fires exactly when the
incoming action's key already occurs `MAX_OCCURRENCES = 3` times among the
(at most 9) tracked keys — that is, on its fourth tracked occurrence; when
it fires the window is cleared and the action is not recorded, otherwise
the action is recorded; and after processing no key appears more than 3
times in the window, whose length stays at most 9. -/
theorem c3_loop_detection (cfg : Loop.LoopConfig) (script : Nat → Loop.IterInput)
    (t : Loop.IterTrace) (ht : t ∈ (Loop.runAgentLoop cfg script).2)
    (lc : Loop.LoopCheckTrace) (hlc : t.loopCheck = some lc) :
    (lc.stuckFired = true ↔ Loop.MAX_OCCURRENCES ≤ lc.windowBefore.count lc.key) ∧
    (lc.stuckFired = true → lc.windowAfter = [] ∧ lc.recorded = false) ∧
    (lc.stuckFired = false → lc.recorded = true) ∧
    lc.windowAfter.length ≤ Loop.RECENT_WINDOW ∧
    (∀ k, lc.windowAfter.count k ≤ Loop.MAX_OCCURRENCES) := by
  unfold Loop.runAgentLoop at ht
  have h := Loop.runLoopAux_traces cfg script cfg.maxIterations Loop.initialState
    Loop.initialState_windowInv (Loop.initialState_visionInv cfg) t ht
  have hg := h.1 lc hlc
  exact ⟨hg.1, hg.2.1, hg.2.2.1, hg.2.2.2.1, hg.2.2.2.2.1⟩

/-- Witness for `c3_loop_detection`: in the all-identical-clicks run the
entry at iteration 3 (the fourth occurrence) fired STUCK, cleared the
window and recorded nothing. -/
theorem c3_loop_detection_witness :
    (⟨c3Key, [c3Key, c3Key, c3Key], 3, true, [], false⟩ :
      Loop.LoopCheckTrace).windowAfter = [] ∧
    (⟨c3Key, [c3Key, c3Key, c3Key], 3, true, [], false⟩ :
      Loop.LoopCheckTrace).recorded = false :=
  (c3_loop_detection c3cfg (fun _ => c3click)
    ⟨3, false, false, false, some ⟨c3Key, [c3Key, c3Key, c3Key], 3, true, [], false⟩⟩
    (by decide) _ rfl).2.1 rfl

/-! ## Claim C4 — token budget -/

def c4cfg : Loop.LoopConfig := ⟨"gpt-4o-mini", false, 10, 120000, 1000, 500⟩

def c4click : Loop.IterInput :=
  ⟨false, 0, 0, demoSnapshot, false, .success ⟨200, 200, 400⟩ (.ok (.click "#more")), .ok ()⟩

def c4script : Nat → Loop.IterInput := fun _ => c4click

/-- C4 counterexample.  With `maxTotalTokens = 1000` and 400-token calls
the loop stops at the top of iteration 3 with 1200 tokens — within the
claimed bound — but `Auspex.run` then adds the static-loop attempt's 400
tokens to the returned result, whose 1600 total exceeds
`maxTotalTokens + one call's delta = 1400`. -/
theorem c4_static_usage_counterexample :
    (Loop.runAgentLoop c4cfg c4script).1.status = .error ∧
    (Loop.runAgentLoop c4cfg c4script).1.error =
      some (Loop.budgetMsg 1200 1000) ∧
    (Loop.addStaticUsage (Loop.runAgentLoop c4cfg c4script).1
      ⟨200, 200, 400, 1⟩).usage.totalTokens = 1600 ∧
    ¬((Loop.addStaticUsage (Loop.runAgentLoop c4cfg c4script).1
      ⟨200, 200, 400, 1⟩).usage.totalTokens ≤ c4cfg.maxTotalTokens + 400) := by
  refine ⟨rfl, rfl, rfl, ?_⟩
  intro h
  have h16 : (Loop.addStaticUsage (Loop.runAgentLoop c4cfg c4script).1
      ⟨200, 200, 400, 1⟩).usage.totalTokens = 1600 := rfl
  have hc : c4cfg.maxTotalTokens = 1000 := rfl
  rw [h16, hc] at h
  omega

/-- C4, amended: the budget check at the top of each iteration terminates
the loop with status `error` and a message containing
"Token budget exceeded" once `usage.totalTokens` reaches a positive
`maxTotalTokens`; the interactive loop's own result stays below
`maxTotalTokens` plus one LLM call's delta; and the result `Auspex.run`
returns after a static-loop attempt stays below that bound plus the
static attempt's tokens (which the claim's bound omitted). -/
theorem c4_token_budget (cfg : Loop.LoopConfig) (script : Nat → Loop.IterInput)
    (D : Nat) (staticUsage : Loop.LLMUsage)
    (hmax : 0 < cfg.maxTotalTokens) (hD : ∀ n, Loop.deltaOf (script n) ≤ D) :
    (Loop.runAgentLoop cfg script).1.usage.totalTokens < cfg.maxTotalTokens + D ∧
    (Loop.addStaticUsage (Loop.runAgentLoop cfg script).1
        staticUsage).usage.totalTokens <
      cfg.maxTotalTokens + D + staticUsage.totalTokens ∧
    (∀ (st : Loop.LoopState) (inp : Loop.IterInput),
      inp.aborted = false → inp.elapsedMs ≤ cfg.timeoutMs →
      cfg.maxTotalTokens ≤ st.usage.totalTokens →
      Loop.stepIter cfg st inp =
        .terminal none (Loop.buildResult .error none
          { st with peakRssKb := max st.peakRssKb inp.rssKb }
          (some (Loop.budgetMsg st.usage.totalTokens cfg.maxTotalTokens))) ∧
      containsSub (Loop.budgetMsg st.usage.totalTokens cfg.maxTotalTokens)
        "Token budget exceeded" = true) := by
  have hb : (Loop.runAgentLoop cfg script).1.usage.totalTokens <
      cfg.maxTotalTokens + D := by
    unfold Loop.runAgentLoop
    refine Loop.runLoopAux_budget cfg script D hmax hD cfg.maxIterations
      Loop.initialState ?_
    simp [Loop.initialState, Loop.emptyUsage]
    omega
  refine ⟨hb, ?_, ?_⟩
  · have := Loop.addStaticUsage_le (Loop.runAgentLoop cfg script).1 staticUsage
    omega
  · intro st inp h1 h2 h3
    have ht : ¬(cfg.timeoutMs < inp.elapsedMs) := by omega
    refine ⟨?_, containsSub_append_left _ _⟩
    simp [Loop.stepIter, h1, ht, hmax, h3]

/-- Witness for `c4_token_budget` at the concrete 400-token script. -/
theorem c4_token_budget_witness :
    (Loop.runAgentLoop c4cfg c4script).1.usage.totalTokens <
      c4cfg.maxTotalTokens + 400 ∧
    (Loop.addStaticUsage (Loop.runAgentLoop c4cfg c4script).1
        ⟨200, 200, 400, 1⟩).usage.totalTokens ≤ c4cfg.maxTotalTokens + 400 + 400 :=
  ⟨(c4_token_budget c4cfg c4script 400 ⟨200, 200, 400, 1⟩ (by decide)
      (fun _ => Nat.le.refl)).1,
   le_of_lt (c4_token_budget c4cfg c4script 400 ⟨200, 200, 400, 1⟩ (by decide)
      (fun _ => Nat.le.refl)).2.1⟩

/-! ## Claim C5 — done dispatch -/

/-- C5: whenever the parsed action is `done`, a result beginning with
`FAILED:` terminates the run with status `error`, null data and the
trimmed tail (or default) as message, and any other result terminates with
status `done` carrying the result — in the static loop (tier `http`) and
at the done-dispatch point of the interactive loop. -/
theorem c5_done_dispatch :
    (∀ (delta : Loop.UsageDelta) (r : String),
      (strStartsWith r "FAILED:" = true →
        (Loop.runStaticLoop false (.success delta (.ok (.done r)))).result =
          some { status := .error, tier := .http, data := none,
                 actions := [⟨.done r, 0⟩],
                 usage := ⟨delta.promptTokens, delta.completionTokens,
                   delta.totalTokens, 1⟩,
                 peakRssKb := 0, error := some (Loop.failReason r) }) ∧
      (strStartsWith r "FAILED:" = false →
        (Loop.runStaticLoop false (.success delta (.ok (.done r)))).result =
          some { status := .done, tier := .http, data := some r,
                 actions := [⟨.done r, 0⟩],
                 usage := ⟨delta.promptTokens, delta.completionTokens,
                   delta.totalTokens, 1⟩,
                 peakRssKb := 0, error := none })) ∧
    (∀ (cfg : Loop.LoopConfig) (st : Loop.LoopState) (inp : Loop.IterInput)
        (delta : Loop.UsageDelta) (r : String),
      inp.aborted = false → inp.elapsedMs ≤ cfg.timeoutMs →
      (cfg.maxTotalTokens = 0 ∨ st.usage.totalTokens < cfg.maxTotalTokens) →
      Loop.isBlockedPage inp.snapshot = false →
      inp.llm = .success delta (.ok (.done r)) →
      st.recentActionKeys.count (Loop.actionKeyOf (.done r)) <
        Loop.MAX_OCCURRENCES →
      ∃ tr res, Loop.stepIter cfg st inp = .terminal (some tr) res ∧
        (strStartsWith r "FAILED:" = true →
          res.status = .error ∧ res.data = none ∧
            res.error = some (Loop.failReason r)) ∧
        (strStartsWith r "FAILED:" = false →
          res.status = .done ∧ res.data = some r ∧ res.error = none)) := by
  constructor
  · intro delta r
    constructor <;> intro hF <;> simp [Loop.runStaticLoop, hF]
  · intro cfg st inp delta r h1 h2 h3 h4 h5 h6
    have ht : decide (cfg.timeoutMs < inp.elapsedMs) = false := by
      simp
      omega
    have hb : (decide (0 < cfg.maxTotalTokens) &&
        decide (cfg.maxTotalTokens ≤ st.usage.totalTokens)) = false := by
      rcases h3 with h0 | hlt
      · simp [h0]
      · simp
        omega
    have hocc : decide (Loop.MAX_OCCURRENCES ≤
        st.recentActionKeys.count (Loop.actionKeyOf (.done r))) = false := by
      simp
      omega
    cases hF : strStartsWith r "FAILED:" with
    | true =>
      cases hstep : Loop.stepIter cfg st inp with
      | next tr st1 =>
        have hc := hstep
        simp [Loop.stepIter, h1, ht, hb, h4, h5, hocc, hF] at hc
      | terminal tro res =>
        have hc := hstep
        simp [Loop.stepIter, h1, ht, hb, h4, h5, hocc, hF] at hc
        obtain ⟨htro, hres⟩ := hc
        subst htro
        subst hres
        refine ⟨_, _, rfl, ?_, ?_⟩
        · intro _
          exact ⟨rfl, rfl, rfl⟩
        · intro hcontra
          cases hcontra
    | false =>
      cases hstep : Loop.stepIter cfg st inp with
      | next tr st1 =>
        have hc := hstep
        simp [Loop.stepIter, h1, ht, hb, h4, h5, hocc, hF] at hc
      | terminal tro res =>
        have hc := hstep
        simp [Loop.stepIter, h1, ht, hb, h4, h5, hocc, hF] at hc
        obtain ⟨htro, hres⟩ := hc
        subst htro
        subst hres
        refine ⟨_, _, rfl, ?_, ?_⟩
        · intro hcontra
          cases hcontra
        · intro _
          exact ⟨rfl, rfl, rfl⟩

/-- Witness for `c5_done_dispatch`: the `FAILED:` and plain static cases,
and the interactive `done` dispatch on a fresh state. -/
theorem c5_done_dispatch_witness :
    (Loop.runStaticLoop false (.success ⟨5, 5, 10⟩
        (.ok (.done "FAILED: no data")))).result =
      some { status := .error, tier := .http, data := none,
             actions := [⟨.done "FAILED: no data", 0⟩],
             usage := ⟨5, 5, 10, 1⟩, peakRssKb := 0,
             error := some "no data" } ∧
    (Loop.runStaticLoop false (.success ⟨5, 5, 10⟩
        (.ok (.done "the answer")))).result =
      some { status := .done, tier := .http, data := some "the answer",
             actions := [⟨.done "the answer", 0⟩],
             usage := ⟨5, 5, 10, 1⟩, peakRssKb := 0, error := none } ∧
    (∃ tr res,
      Loop.stepIter ⟨"gpt-4o", false, 5, 120000, 0, 500⟩ Loop.initialState
        ⟨false, 0, 0, demoSnapshot, false,
          .success ⟨5, 5, 10⟩ (.ok (.done "42")), .ok ()⟩ =
        .terminal (some tr) res ∧
      res.status = .done ∧ res.data = some "42") := by
  refine ⟨?_, ?_, ?_⟩
  · exact (c5_done_dispatch.1 ⟨5, 5, 10⟩ "FAILED: no data").1 rfl
  · exact (c5_done_dispatch.1 ⟨5, 5, 10⟩ "the answer").2 rfl
  · obtain ⟨tr, res, heq, himp⟩ :=
      c5_done_dispatch.2 ⟨"gpt-4o", false, 5, 120000, 0, 500⟩ Loop.initialState
        ⟨false, 0, 0, demoSnapshot, false,
          .success ⟨5, 5, 10⟩ (.ok (.done "42")), .ok ()⟩
        ⟨5, 5, 10⟩ "42" rfl (by decide) (.inl rfl) rfl rfl (by decide)
    exact ⟨tr, res, heq, (himp.2 rfl).1, (himp.2 rfl).2.1⟩

/-! ## Claim C6 — vision gating -/

def c6cfg : Loop.LoopConfig := ⟨"gpt-4o", true, 6, 120000, 0, 500⟩

def c6invalid : Loop.IterInput :=
  ⟨false, 0, 0, demoSnapshot, true,
   .success ⟨10, 10, 20⟩ (.error "not a valid action"), .ok ()⟩

def c6done : Loop.IterInput :=
  ⟨false, 0, 0, demoSnapshot, true,
   .success ⟨10, 10, 20⟩ (.ok (.done "found")), .ok ()⟩

def c6script : Nat → Loop.IterInput := fun n => if n < 3 then c6invalid else c6done

/-- C6: in every run, a screenshot is attached to an LLM request only when
the vision flag is active, which requires `config.vision` set, a
whitelisted vision model, and a consecutive-failure streak that reached
the escalation threshold at some earlier point; and once active the flag
stays active for every remaining iteration. -/
theorem c6_vision_gating (cfg : Loop.LoopConfig) (script : Nat → Loop.IterInput) :
    (∀ t ∈ (Loop.runAgentLoop cfg script).2, t.screenshotAttached = true →
      t.visionActiveAtCall = true ∧
      (cfg.vision && Loop.isVisionModel cfg.model) = true ∧
      t.everReached3Before = true) ∧
    (∀ (i j : Nat) (ti tj : Loop.IterTrace),
      (Loop.runAgentLoop cfg script).2[i]? = some ti →
      (Loop.runAgentLoop cfg script).2[j]? = some tj → i ≤ j →
      ti.visionActiveAtCall = true → tj.visionActiveAtCall = true) := by
  constructor
  · intro t ht hs
    unfold Loop.runAgentLoop at ht
    have h := Loop.runLoopAux_traces cfg script cfg.maxIterations Loop.initialState
      Loop.initialState_windowInv (Loop.initialState_visionInv cfg) t ht
    have hv := h.2.1 hs
    exact ⟨hv, (h.2.2 hv).1, (h.2.2 hv).2⟩
  · intro i j ti tj hti htj hij hvi
    unfold Loop.runAgentLoop at hti htj
    exact Loop.runLoopAux_vision_mono cfg script cfg.maxIterations
      Loop.initialState Loop.initialState_windowInv
      (Loop.initialState_visionInv cfg) i j ti tj hti htj hij hvi

/-- Witness for `c6_vision_gating`: after three invalid actions under a
vision-capable configuration, iteration 3's request attaches a screenshot,
and the theorem yields the availability and prior-streak facts. -/
theorem c6_vision_gating_witness :
    (c6cfg.vision && Loop.isVisionModel c6cfg.model) = true ∧
    (⟨3, true, true, true, some ⟨Loop.actionKeyOf (.done "found"), [], 0, false,
        [Loop.actionKeyOf (.done "found")], true⟩⟩ :
      Loop.IterTrace).everReached3Before = true := by
  have h := (c6_vision_gating c6cfg c6script).1
    ⟨3, true, true, true, some ⟨Loop.actionKeyOf (.done "found"), [], 0, false,
        [Loop.actionKeyOf (.done "found")], true⟩⟩ (by decide) rfl
  exact ⟨h.2.1, h.2.2⟩

end Auspex